import Mathlib

/-!
Verification of the RoninZRProxy USB PTP protocol engine.

This file shallowly embeds the container codec, the operation dispatcher, the
stream transmitter, the control-request handler (all from
`src/main/usb_ptp_cam.c`) and the Frame Tunnel framing (from
`src/main/ptp_proxy_server.c`), and proves the spec's testable properties
about them.  Bytes are modelled as natural numbers (a well-formed byte is
`< 256`); buffers are `List Nat`; machine-integer truncation is written with
explicit `% 2 ^ w`.
-/

-- ---------------------------------------------------------------------------
-- Little/big-endian byte helpers (wr_le16 / wr_le32 / rd_le16 / rd_le32)
-- ---------------------------------------------------------------------------

/-- Functional rendering of `wr_le16`: the two bytes written for value `v`. -/
def le16 (v : Nat) : List Nat := [v % 256, v / 256 % 256]

/-- Functional rendering of `wr_le32`: the four bytes written for value `v`. -/
def le32 (v : Nat) : List Nat :=
  [v % 256, v / 2 ^ 8 % 256, v / 2 ^ 16 % 256, v / 2 ^ 24 % 256]

/-- `rd_le16(buf + i)`: read a 16-bit little-endian value at offset `i`. -/
def rd_le16 (buf : List Nat) (i : Nat) : Nat :=
  buf.getD i 0 + 256 * buf.getD (i + 1) 0

/-- `rd_le32(buf + i)`: read a 32-bit little-endian value at offset `i`. -/
def rd_le32 (buf : List Nat) (i : Nat) : Nat :=
  buf.getD i 0 + 2 ^ 8 * buf.getD (i + 1) 0 + 2 ^ 16 * buf.getD (i + 2) 0 +
    2 ^ 24 * buf.getD (i + 3) 0

-- ---------------------------------------------------------------------------
-- Container layouts and the parsed-command record
-- ---------------------------------------------------------------------------

/-- `rs3_ptp_layout_t` from `usb_ptp_cam.c`. -/
inductive rs3_ptp_layout_t where
  | std_len
  | alt_len
  | dji_pad16_nolen
  | dji_pad8_nolen
  | dji_pad24_nolen
deriving DecidableEq, Repr

/-- `rs3_ptp_cmd_parsed_t`: result of `parse_rs3_ptp_cmd`.  `params` holds the
`param_count` decoded 32-bit parameters. -/
structure rs3_ptp_cmd_parsed_t where
  layout : rs3_ptp_layout_t
  type : Nat
  code : Nat
  tid : Nat
  params : List Nat
  param_count : Nat
  header_bytes : Nat
deriving DecidableEq, Repr

/-- The shared `decode_params` tail of `parse_rs3_ptp_cmd`: number of 4-byte
little-endian parameters after the header (capped at 5) and their values. -/
def decode_params (buf : List Nat) (header_bytes : Nat) : Nat × List Nat :=
  let n := buf.length
  if n > header_bytes then
    let avail := n - header_bytes
    let want := min (avail / 4) 5
    (want, (List.range want).map fun i => rd_le32 buf (header_bytes + 4 * i))
  else
    (0, [])

/-- Helper building the parsed record for a detected layout. -/
def mk_parsed (buf : List Nat) (layout : rs3_ptp_layout_t)
    (ty code tid header_bytes : Nat) : rs3_ptp_cmd_parsed_t :=
  let pc := decode_params buf header_bytes
  { layout := layout, type := ty, code := code, tid := tid,
    params := pc.2, param_count := pc.1, header_bytes := header_bytes }

/-- `parse_rs3_ptp_cmd` from `usb_ptp_cam.c`: heuristic layout detection in the
source's order (pad24, pad16, pad8, std, alt), then parameter decoding. -/
def parse_rs3_ptp_cmd (buf : List Nat) : Option rs3_ptp_cmd_parsed_t :=
  let n := buf.length
  if n < 8 then none
  else if 11 ≤ n ∧ buf.getD 0 0 = 0 ∧ buf.getD 1 0 = 0 ∧ buf.getD 2 0 = 0 ∧
      1 ≤ rd_le16 buf 3 ∧ rd_le16 buf 3 ≤ 4 then
    some (mk_parsed buf .dji_pad24_nolen (rd_le16 buf 3) (rd_le16 buf 5)
      (rd_le32 buf 7) 11)
  else if 10 ≤ n ∧ rd_le16 buf 0 = 0 ∧ 1 ≤ rd_le16 buf 2 ∧ rd_le16 buf 2 ≤ 4 then
    some (mk_parsed buf .dji_pad16_nolen (rd_le16 buf 2) (rd_le16 buf 4)
      (rd_le32 buf 6) 10)
  else if 9 ≤ n ∧ buf.getD 0 0 = 0 ∧ 1 ≤ rd_le16 buf 1 ∧ rd_le16 buf 1 ≤ 4 then
    some (mk_parsed buf .dji_pad8_nolen (rd_le16 buf 1) (rd_le16 buf 3)
      (rd_le32 buf 5) 9)
  else if 12 ≤ n ∧ 1 ≤ rd_le16 buf 4 ∧ rd_le16 buf 4 ≤ 4 then
    some (mk_parsed buf .std_len (rd_le16 buf 4) (rd_le16 buf 6)
      (rd_le32 buf 8) 12)
  else if 12 ≤ n ∧ 1 ≤ rd_le16 buf 10 ∧ rd_le16 buf 10 ≤ 4 then
    some (mk_parsed buf .alt_len (rd_le16 buf 10) (rd_le16 buf 4)
      (rd_le32 buf 6) 12)
  else
    none

-- ---------------------------------------------------------------------------
-- Per-layout decoders and the priority-order specification of decoding
-- ---------------------------------------------------------------------------

/-- Decoder for one candidate layout: succeeds exactly when the buffer is long
enough, the layout's pad bytes (where required) are zero, and the 16-bit
discriminator lies in 1..4. -/
def try_layout (layout : rs3_ptp_layout_t) (buf : List Nat) :
    Option rs3_ptp_cmd_parsed_t :=
  let n := buf.length
  match layout with
  | .dji_pad24_nolen =>
    if 11 ≤ n ∧ buf.getD 0 0 = 0 ∧ buf.getD 1 0 = 0 ∧ buf.getD 2 0 = 0 ∧
        1 ≤ rd_le16 buf 3 ∧ rd_le16 buf 3 ≤ 4 then
      some (mk_parsed buf .dji_pad24_nolen (rd_le16 buf 3) (rd_le16 buf 5)
        (rd_le32 buf 7) 11)
    else none
  | .dji_pad16_nolen =>
    if 10 ≤ n ∧ rd_le16 buf 0 = 0 ∧ 1 ≤ rd_le16 buf 2 ∧ rd_le16 buf 2 ≤ 4 then
      some (mk_parsed buf .dji_pad16_nolen (rd_le16 buf 2) (rd_le16 buf 4)
        (rd_le32 buf 6) 10)
    else none
  | .dji_pad8_nolen =>
    if 9 ≤ n ∧ buf.getD 0 0 = 0 ∧ 1 ≤ rd_le16 buf 1 ∧ rd_le16 buf 1 ≤ 4 then
      some (mk_parsed buf .dji_pad8_nolen (rd_le16 buf 1) (rd_le16 buf 3)
        (rd_le32 buf 5) 9)
    else none
  | .std_len =>
    if 12 ≤ n ∧ 1 ≤ rd_le16 buf 4 ∧ rd_le16 buf 4 ≤ 4 then
      some (mk_parsed buf .std_len (rd_le16 buf 4) (rd_le16 buf 6)
        (rd_le32 buf 8) 12)
    else none
  | .alt_len =>
    if 12 ≤ n ∧ 1 ≤ rd_le16 buf 10 ∧ rd_le16 buf 10 ≤ 4 then
      some (mk_parsed buf .alt_len (rd_le16 buf 10) (rd_le16 buf 4)
        (rd_le32 buf 6) 12)
    else none

/-- The spec's fixed layout priority order (Pad24, Pad16, Pad8, Standard,
Alternate). -/
def layout_priority : List rs3_ptp_layout_t :=
  [.dji_pad24_nolen, .dji_pad16_nolen, .dji_pad8_nolen, .std_len, .alt_len]

/-- Priority-ordered decoding as the spec words it: try the five layouts in
`layout_priority` order and return the first success. -/
def decode_by_priority (buf : List Nat) : Option rs3_ptp_cmd_parsed_t :=
  layout_priority.findSome? fun l => try_layout l buf

/-- A buffer is a valid encoding under `layout` iff that layout's decoder
accepts it. -/
def valid_in_layout (layout : rs3_ptp_layout_t) (buf : List Nat) : Prop :=
  (try_layout layout buf).isSome

instance (layout : rs3_ptp_layout_t) (buf : List Nat) :
    Decidable (valid_in_layout layout buf) := by
  unfold valid_in_layout; infer_instance

-- ---------------------------------------------------------------------------
-- Header writer (write_ptp_hdr) and the per-layout header size
-- ---------------------------------------------------------------------------

/-- `ptp_hdr_bytes_for_layout`: header size in bytes for each layout. -/
def ptp_hdr_bytes_for_layout (layout : rs3_ptp_layout_t) : Nat :=
  match layout with
  | .dji_pad24_nolen => 11
  | .dji_pad16_nolen => 10
  | .dji_pad8_nolen => 9
  | .alt_len => 12
  | .std_len => 12

/-- The bytes `write_ptp_hdr` stores for a given active layout: the returned
list has length `ptp_hdr_bytes_for_layout layout` and is written at offset 0
of the destination buffer. -/
def write_ptp_hdr (layout : rs3_ptp_layout_t) (len ty code tid : Nat) :
    List Nat :=
  match layout with
  | .dji_pad24_nolen => [0, 0, 0] ++ le16 ty ++ le16 code ++ le32 tid
  | .dji_pad16_nolen => [0, 0] ++ le16 ty ++ le16 code ++ le32 tid
  | .dji_pad8_nolen => [0] ++ le16 ty ++ le16 code ++ le32 tid
  | .alt_len => le32 len ++ le16 code ++ le32 tid ++ le16 ty
  | .std_len => le32 len ++ le16 ty ++ le16 code ++ le32 tid

/-- Encode a container in a chosen layout: the layout-parameterised header
writer followed by the parameters as 4-byte little-endian words.  The length
field (used only by the two length-prefixed layouts) is `12 + 4 * n_params`,
exactly how the transmit paths compute it (12-byte standard header plus
payload length). -/
def encode_in_layout (layout : rs3_ptp_layout_t) (kind op tid : Nat)
    (params : List Nat) : List Nat :=
  write_ptp_hdr layout (12 + 4 * params.length) kind op tid ++
    params.flatMap le32

-- ---------------------------------------------------------------------------
-- PTP constants used by the dispatcher
-- ---------------------------------------------------------------------------

def PTP_CT_COMMAND : Nat := 1
def PTP_CT_DATA : Nat := 2
def PTP_CT_RESPONSE : Nat := 3
def PTP_RC_OK : Nat := 0x2001
def PTP_RC_OPERATION_NOT_SUPPORTED : Nat := 0x2005
def PTP_OC_GET_DEVICE_INFO : Nat := 0x1001
def PTP_OC_OPEN_SESSION : Nat := 0x1002
def PTP_OC_CLOSE_SESSION : Nat := 0x1003
def PTP_OC_GET_STORAGE_IDS : Nat := 0x1004
def PTP_OC_GET_STORAGE_INFO : Nat := 0x1005
def PTP_OC_GET_NUM_OBJECTS : Nat := 0x1006
def PTP_OC_GET_OBJECT_HANDLES : Nat := 0x1007
def PTP_OC_SONY_9201 : Nat := 0x9201
def PTP_OC_SONY_9202 : Nat := 0x9202
def PTP_OC_SONY_9207 : Nat := 0x9207
def PTP_OC_SONY_9209 : Nat := 0x9209

-- ---------------------------------------------------------------------------
-- Device state (the module's static variables) and emitted actions
-- ---------------------------------------------------------------------------

/-- The mutable statics of `usb_ptp_cam.c` that the protocol engine touches. -/
structure DeviceState where
  session_id : Nat
  tx_stream_active : Bool
  tx_stream_code : Nat
  tx_stream_tid : Nat
  tx_stream_payload : List Nat
  tx_stream_payload_len : Nat
  tx_stream_payload_off : Nat
  tx_stream_need_zlp : Bool
  tx_stream_zlp_sent : Bool
  tx_stream_send_ok_after : Bool
  waiting_data : Bool
  waiting_data_code : Nat
  waiting_data_tid : Nat
  waiting_data_p0 : Nat
  recording : Bool
  ptp_layout : rs3_ptp_layout_t
  last_rx_layout : rs3_ptp_layout_t
  tx_buf : List Nat
  ctrl_buf : List Nat
deriving DecidableEq, Repr

/-- Observable effects of the bulk callbacks: bulk-IN transfers (tagged with
the emitting call site), published recording events, and re-arming of the
bulk-OUT pipe. -/
inductive DevAction where
  | xferFirst (bytes : List Nat)
  | xferChunk (bytes : List Nat)
  | xferZLP
  | xferResp (bytes : List Nat)
  | publishStart (tid : Nat) (payload : List Nat)
  | publishStop (tid : Nat) (payload : List Nat)
  | rearmOut
deriving DecidableEq, Repr

/-- `memcpy`-style overwrite of `bs` into `buf` at offset `off`. -/
def list_overwrite (buf : List Nat) (off : Nat) (bs : List Nat) : List Nat :=
  buf.take off ++ bs ++ buf.drop (off + bs.length)

/-- Initial values of the statics (zero-initialised; `s_ptp_layout` starts as
`RS3_PTP_LAYOUT_STD_LEN`). -/
def initState : DeviceState :=
  { session_id := 0, tx_stream_active := false, tx_stream_code := 0,
    tx_stream_tid := 0, tx_stream_payload := [], tx_stream_payload_len := 0,
    tx_stream_payload_off := 0, tx_stream_need_zlp := false,
    tx_stream_zlp_sent := false, tx_stream_send_ok_after := false,
    waiting_data := false, waiting_data_code := 0, waiting_data_tid := 0,
    waiting_data_p0 := 0, recording := false, ptp_layout := .std_len,
    last_rx_layout := .std_len, tx_buf := List.replicate 512 0,
    ctrl_buf := List.replicate 64 0 }

-- ---------------------------------------------------------------------------
-- send_response and tx_stream_start
-- ---------------------------------------------------------------------------

/-- `send_response`: forces the standard layout while writing the response
header into `s_tx_buf` (saving and restoring `s_ptp_layout`), then transfers
exactly the header bytes on bulk IN.  Returns the new state and the
transferred bytes. -/
def send_response (st : DeviceState) (resp_code tid : Nat) :
    DeviceState × List Nat :=
  let saved := st.ptp_layout
  let st1 := { st with ptp_layout := rs3_ptp_layout_t.std_len }
  let hdr := write_ptp_hdr st1.ptp_layout 12 PTP_CT_RESPONSE resp_code tid
  let buf1 := list_overwrite st1.tx_buf 0 hdr
  let st2 := { st1 with ptp_layout := saved, tx_buf := buf1 }
  (st2, buf1.take hdr.length)

/-- `tx_stream_start`: arms the stream context, writes the Data header (via
`write_ptp_hdr` under the process-wide layout) and the first payload chunk
into `s_tx_buf`, and transfers `12 + first_payload` bytes. -/
def tx_stream_start (st : DeviceState) (op_code trans_id : Nat)
    (payload : List Nat) (send_ok_after : Bool) : DeviceState × List Nat :=
  let payload_len := payload.length
  let st1 := { st with
    tx_stream_active := true, tx_stream_code := op_code,
    tx_stream_tid := trans_id, tx_stream_payload := payload,
    tx_stream_payload_len := payload_len, tx_stream_payload_off := 0,
    tx_stream_need_zlp := decide ((12 + payload_len) % 64 = 0),
    tx_stream_zlp_sent := false, tx_stream_send_ok_after := send_ok_after }
  let first_payload := min payload_len (512 - 12)
  let len_field := 12 + payload_len
  let hdr := write_ptp_hdr st1.ptp_layout len_field PTP_CT_DATA op_code trans_id
  let buf1 := list_overwrite st1.tx_buf 0 hdr
  let buf2 := list_overwrite buf1 12 (payload.take first_payload)
  let st2 := { st1 with tx_buf := buf2, tx_stream_payload_off := first_payload }
  (st2, buf2.take (12 + first_payload))

-- ---------------------------------------------------------------------------
-- Canned response payloads captured from the Sony ILCE-5100
-- ---------------------------------------------------------------------------

def k_devinfo_payload_1001 : List Nat := [
  100, 0, 17, 0, 0, 0, 100, 0, 20, 83, 0, 111, 0, 110, 0, 121,
  0, 32, 0, 80, 0, 84, 0, 80, 0, 32, 0, 69, 0, 120, 0, 116,
  0, 101, 0, 110, 0, 115, 0, 105, 0, 111, 0, 110, 0, 115, 0, 0,
  0, 0, 0, 16, 0, 0, 0, 2, 16, 3, 16, 1, 16, 4, 16, 5,
  16, 6, 16, 7, 16, 8, 16, 9, 16, 10, 16, 27, 16, 1, 146, 2,
  146, 5, 146, 7, 146, 9, 146, 3, 0, 0, 0, 1, 194, 2, 194, 3,
  194, 0, 0, 0, 0, 0, 0, 0, 0, 3, 0, 0, 0, 1, 56, 1,
  179, 1, 177, 17, 83, 0, 111, 0, 110, 0, 121, 0, 32, 0, 67, 0,
  111, 0, 114, 0, 112, 0, 111, 0, 114, 0, 97, 0, 116, 0, 105, 0,
  111, 0, 110, 0, 0, 0, 10, 73, 0, 76, 0, 67, 0, 69, 0, 45,
  0, 53, 0, 49, 0, 48, 0, 48, 0, 0, 0, 4, 51, 0, 46, 0,
  48, 0, 0, 0, 33, 48, 0, 48, 0, 48, 0, 48, 0, 48, 0, 48,
  0, 48, 0, 48, 0, 48, 0, 48, 0, 48, 0, 48, 0, 48, 0, 48,
  0, 48, 0, 48, 0, 51, 0, 50, 0, 56, 0, 50, 0, 55, 0, 54,
  0, 51, 0, 48, 0, 48, 0, 51, 0, 56, 0, 53, 0, 57, 0, 48,
  0, 56, 0, 55, 0, 0, 0]

def k_storageids_payload_1004 : List Nat := [
  1, 0, 0, 0, 0, 0, 1, 0]

def k_vendor_9201_payload : List Nat := [
  0, 0, 0, 0, 0, 0, 0, 0]

def k_vendor_9202_payload : List Nat := [
  200, 0, 31, 0, 0, 0, 4, 80, 5, 80, 7, 80, 10, 80, 11, 80,
  12, 80, 14, 80, 16, 80, 19, 80, 0, 210, 1, 210, 3, 210, 13, 210,
  14, 210, 15, 210, 16, 210, 28, 210, 17, 210, 19, 210, 30, 210, 27, 210,
  29, 210, 31, 210, 23, 210, 24, 210, 25, 210, 18, 210, 33, 210, 20, 210,
  21, 210, 32, 210, 6, 0, 0, 0, 193, 210, 194, 210, 195, 210, 200, 210,
  197, 210, 199, 210]

def k_vendor_9209_payload : List Nat := [
  36, 0, 0, 0, 0, 0, 0, 0, 4, 80, 2, 0, 1, 0, 2, 3,
  2, 7, 0, 1, 2, 3, 16, 19, 32, 35, 5, 80, 4, 0, 1, 1,
  2, 0, 2, 0, 2, 12, 0, 2, 0, 4, 0, 17, 128, 16, 128, 6,
  0, 1, 128, 2, 128, 3, 128, 4, 128, 48, 128, 18, 128, 35, 128, 7,
  80, 4, 0, 0, 1, 255, 255, 200, 0, 1, 0, 0, 255, 255, 1, 0,
  10, 80, 4, 0, 0, 2, 1, 0, 4, 128, 2, 7, 0, 1, 0, 2,
  0, 3, 0, 4, 128, 5, 128, 6, 128, 7, 128, 11, 80, 4, 0, 0,
  2, 1, 0, 1, 0, 2, 3, 0, 4, 0, 1, 0, 2, 128, 12, 80,
  4, 0, 0, 0, 1, 0, 0, 0, 2, 9, 0, 2, 0, 1, 0, 4,
  0, 3, 0, 5, 0, 1, 128, 3, 128, 49, 128, 50, 128, 14, 80, 4,
  0, 0, 2, 1, 0, 81, 128, 2, 21, 0, 0, 128, 1, 128, 2, 0,
  3, 0, 4, 0, 1, 0, 80, 128, 81, 128, 82, 128, 83, 128, 84, 128,
  65, 128, 7, 0, 17, 128, 21, 128, 20, 128, 18, 128, 19, 128, 22, 128,
  23, 128, 24, 128, 16, 80, 3, 0, 0, 1, 0, 0, 212, 254, 2, 43,
  0, 0, 0, 1, 0, 2, 0, 136, 19, 92, 18, 148, 17, 204, 16, 160,
  15, 116, 14, 172, 13, 228, 12, 184, 11, 140, 10, 196, 9, 252, 8, 208,
  7, 164, 6, 220, 5, 20, 5, 232, 3, 188, 2, 244, 1, 44, 1, 212,
  254, 12, 254, 68, 253, 24, 252, 236, 250, 36, 250, 92, 249, 48, 248, 4,
  247, 60, 246, 116, 245, 72, 244, 28, 243, 84, 242, 140, 241, 96, 240, 52,
  239, 108, 238, 164, 237, 120, 236, 19, 80, 4, 0, 1, 0, 1, 0, 1,
  0, 2, 29, 0, 1, 0, 2, 0, 18, 128, 5, 128, 4, 128, 8, 128,
  9, 128, 55, 131, 55, 133, 87, 131, 87, 133, 119, 131, 119, 133, 17, 131,
  33, 131, 49, 131, 54, 131, 54, 133, 86, 131, 86, 133, 118, 131, 118, 133,
  16, 131, 32, 131, 48, 131, 24, 128, 40, 128, 25, 128, 41, 128, 0, 210,
  3, 0, 0, 1, 0, 0, 0, 0, 2, 27, 0, 0, 0, 1, 0, 2,
  0, 184, 11, 140, 10, 196, 9, 252, 8, 208, 7, 164, 6, 220, 5, 20,
  5, 232, 3, 188, 2, 244, 1, 44, 1, 212, 254, 12, 254, 68, 253, 24,
  252, 236, 250, 36, 250, 92, 249, 48, 248, 4, 247, 60, 246, 116, 245, 72,
  244, 1, 210, 2, 0, 1, 1, 1, 1, 2, 7, 0, 1, 31, 17, 18,
  19, 20, 21, 3, 210, 2, 0, 1, 1, 4, 1, 2, 3, 0, 1, 2,
  3, 13, 210, 6, 0, 0, 2, 255, 255, 255, 255, 100, 0, 1, 0, 1,
  0, 0, 0, 0, 255, 255, 255, 255, 1, 0, 0, 0, 14, 210, 2, 0,
  0, 2, 1, 5, 2, 10, 0, 1, 2, 3, 8, 9, 10, 4, 5, 6,
  7, 15, 210, 4, 0, 1, 0, 124, 21, 0, 0, 1, 196, 9, 172, 38,
  100, 0, 16, 210, 2, 0, 1, 1, 128, 128, 1, 121, 135, 1, 28, 210,
  2, 0, 1, 1, 128, 128, 1, 121, 135, 1, 17, 210, 2, 0, 1, 1,
  1, 2, 2, 2, 0, 1, 2, 19, 210, 2, 0, 0, 2, 1, 1, 2,
  6, 0, 1, 2, 3, 5, 6, 7, 30, 210, 6, 0, 0, 1, 255, 255,
  255, 0, 255, 255, 255, 0, 2, 29, 0, 255, 255, 255, 0, 25, 0, 0,
  0, 100, 0, 0, 0, 125, 0, 0, 0, 160, 0, 0, 0, 200, 0, 0,
  0, 250, 0, 0, 0, 64, 1, 0, 0, 144, 1, 0, 0, 244, 1, 0,
  0, 128, 2, 0, 0, 32, 3, 0, 0, 232, 3, 0, 0, 226, 4, 0,
  0, 64, 6, 0, 0, 208, 7, 0, 0, 196, 9, 0, 0, 128, 12, 0,
  0, 160, 15, 0, 0, 136, 19, 0, 0, 0, 25, 0, 0, 64, 31, 0,
  0, 16, 39, 0, 0, 0, 50, 0, 0, 128, 62, 0, 0, 32, 78, 0,
  0, 0, 100, 0, 0, 0, 144, 1, 0, 16, 39, 0, 1, 27, 210, 4,
  0, 1, 1, 0, 128, 0, 128, 2, 16, 0, 0, 128, 1, 128, 2, 128,
  3, 128, 4, 128, 5, 128, 16, 128, 32, 128, 33, 128, 48, 128, 64, 128,
  80, 128, 81, 128, 82, 128, 83, 128, 96, 128, 29, 210, 2, 0, 0, 2,
  0, 0, 1, 0, 2, 1, 31, 210, 2, 0, 0, 2, 1, 0, 2, 0,
  0, 23, 210, 2, 0, 0, 2, 1, 1, 2, 2, 0, 2, 1, 24, 210,
  1, 0, 0, 2, 255, 49, 1, 255, 100, 1, 25, 210, 2, 0, 0, 2,
  1, 2, 2, 2, 0, 2, 1, 193, 210, 4, 0, 129, 1, 1, 0, 1,
  0, 2, 2, 0, 1, 0, 2, 0, 194, 210, 4, 0, 129, 1, 1, 0,
  1, 0, 2, 2, 0, 1, 0, 2, 0, 195, 210, 4, 0, 129, 1, 1,
  0, 1, 0, 2, 2, 0, 1, 0, 2, 0, 200, 210, 4, 0, 129, 1,
  1, 0, 1, 0, 2, 2, 0, 1, 0, 2, 0, 18, 210, 2, 0, 0,
  1, 0, 0, 1, 0, 15, 1, 33, 210, 2, 0, 1, 1, 0, 0, 2,
  3, 0, 0, 1, 2, 20, 210, 6, 0, 0, 1, 255, 255, 255, 255, 255,
  255, 255, 255, 1, 0, 0, 0, 0, 255, 255, 255, 255, 1, 0, 0, 0,
  21, 210, 4, 0, 0, 1, 0, 0, 0, 0, 1, 0, 0, 255, 255, 1,
  0, 197, 210, 4, 0, 131, 1, 1, 0, 1, 0, 2, 2, 0, 1, 0,
  2, 0, 199, 210, 4, 0, 129, 1, 1, 0, 1, 0, 2, 2, 0, 1,
  0, 2, 0]

-- ---------------------------------------------------------------------------
-- StorageInfo dataset builder
-- ---------------------------------------------------------------------------

/-- Functional rendering of `wr` of a 64-bit little-endian value (`W64B`). -/
def le64 (v : Nat) : List Nat :=
  [v % 256, v / 2 ^ 8 % 256, v / 2 ^ 16 % 256, v / 2 ^ 24 % 256,
   v / 2 ^ 32 % 256, v / 2 ^ 40 % 256, v / 2 ^ 48 % 256, v / 2 ^ 56 % 256]

/-- `ptp_write_string_bytes`: a PTP string as length byte, UTF-16LE
characters, and a 16-bit terminator; `none` models a NULL C string. -/
def ptp_write_string_bytes (s : Option (List Nat)) : List Nat :=
  match s with
  | some cs =>
    let len := min cs.length 254
    let n := len + 1
    [n] ++ (cs.take (n - 1)).flatMap (fun c => [c, 0]) ++ [0, 0]
  | none => [0]

/-- ASCII codes of `"Internal Storage"`. -/
def str_internal_storage : List Nat :=
  [73, 110, 116, 101, 114, 110, 97, 108, 32, 83, 116, 111, 114, 97, 103, 101]

/-- ASCII codes of `"SONY"`. -/
def str_sony : List Nat := [83, 79, 78, 89]

/-- `build_storage_info`: fails when the destination capacity is below 64,
otherwise produces the fixed StorageInfo dataset. -/
def build_storage_info (cap : Nat) : Option (List Nat) :=
  if cap < 64 then none
  else some (le16 0x0002 ++ le16 0x0002 ++ le16 0x0000 ++
    le64 (32 * 1024 * 1024 * 1024) ++ le64 (31 * 1024 * 1024 * 1024) ++
    le32 0xFFFFFFFF ++ ptp_write_string_bytes (some str_internal_storage) ++
    ptp_write_string_bytes (some str_sony))

-- ---------------------------------------------------------------------------
-- The bulk-OUT dispatcher (ptp_xfer_cb, OUT branch)
-- ---------------------------------------------------------------------------

/-- Wrap `send_response` as the action it emits. -/
def respond (st : DeviceState) (resp_code tid : Nat) :
    DeviceState × List DevAction :=
  let r := send_response st resp_code tid
  (r.1, [DevAction.xferResp r.2])

/-- `send_data_and_ok`: stream the payload as a standard container then an OK
response (`tx_stream_start` with `send_ok_after = true`). -/
def send_data_and_ok (st : DeviceState) (op_code trans_id : Nat)
    (payload : List Nat) : DeviceState × List DevAction :=
  let r := tx_stream_start st op_code trans_id payload true
  (r.1, [DevAction.xferFirst r.2])

/-- Command-container dispatch of `ptp_xfer_cb` (the chain of `code`
comparisons). -/
def dispatch_command (st : DeviceState) (code tid : Nat) (params : List Nat)
    (param_count : Nat) : DeviceState × List DevAction :=
  if code = PTP_OC_GET_DEVICE_INFO then
    send_data_and_ok st code tid k_devinfo_payload_1001
  else if code = PTP_OC_GET_STORAGE_IDS then
    send_data_and_ok st code tid k_storageids_payload_1004
  else if code = PTP_OC_GET_STORAGE_INFO then
    match build_storage_info 160 with
    | some data => send_data_and_ok st code tid data
    | none => respond st PTP_RC_OPERATION_NOT_SUPPORTED tid
  else if code = PTP_OC_GET_NUM_OBJECTS then
    send_data_and_ok st code tid [0, 0, 0, 0]
  else if code = PTP_OC_GET_OBJECT_HANDLES then
    send_data_and_ok st code tid [0, 0, 0, 0]
  else if code = PTP_OC_OPEN_SESSION then
    let st1 := { st with
      session_id := if 1 ≤ param_count then params.getD 0 0 else 0 }
    respond st1 PTP_RC_OK tid
  else if code = PTP_OC_CLOSE_SESSION then
    let st1 := { st with session_id := 0 }
    respond st1 PTP_RC_OK tid
  else if code = PTP_OC_SONY_9201 then
    send_data_and_ok st code tid k_vendor_9201_payload
  else if code = PTP_OC_SONY_9202 then
    send_data_and_ok st code tid k_vendor_9202_payload
  else if code = PTP_OC_SONY_9209 then
    send_data_and_ok st code tid k_vendor_9209_payload
  else if code = PTP_OC_SONY_9207 then
    ({ st with waiting_data := true, waiting_data_code := code,
               waiting_data_tid := tid,
               waiting_data_p0 := if 1 ≤ param_count then params.getD 0 0 else 0 },
     [])
  else
    respond st PTP_RC_OPERATION_NOT_SUPPORTED tid

/-- Data-container handling of `ptp_xfer_cb`: the two-stage (0x9207) data
phase.  The full-press encoding in the armed command's param 0 is
`0x0000D2C8`; payload byte 0 is `0x02` for start and `0x01` for stop. -/
def handle_data (st : DeviceState) (cmd : rs3_ptp_cmd_parsed_t)
    (rx : List Nat) : DeviceState × List DevAction :=
  let n := rx.length
  let payload_len := if n > cmd.header_bytes then n - cmd.header_bytes else 0
  let payload := (rx.drop cmd.header_bytes).take payload_len
  if st.waiting_data = true ∧ cmd.code = st.waiting_data_code ∧
      cmd.tid = st.waiting_data_tid then
    let full_press := st.waiting_data_p0 = 0x0000D2C8
    let r1 : DeviceState × List DevAction :=
      if full_press then
        if 1 ≤ payload_len then
          if payload.getD 0 0 = 0x02 then
            ({ st with recording := true },
             [DevAction.publishStart cmd.tid payload])
          else if payload.getD 0 0 = 0x01 then
            ({ st with recording := false },
             [DevAction.publishStop cmd.tid payload])
          else (st, [])
        else (st, [])
      else (st, [])
    let st2 := { r1.1 with waiting_data := false, waiting_data_code := 0,
                           waiting_data_tid := 0, waiting_data_p0 := 0 }
    let r2 := respond st2 PTP_RC_OK cmd.tid
    (r2.1, r1.2 ++ r2.2 ++ [DevAction.rearmOut])
  else
    (st, [DevAction.rearmOut])

/-- The bulk-OUT completion handler (`ptp_xfer_cb`, OUT branch): parse the
received container, handle a Data phase or dispatch a Command, and re-arm the
receive pipe exactly once on every path. -/
def ptp_out_handler (st : DeviceState) (rx : List Nat) :
    DeviceState × List DevAction :=
  if 8 ≤ rx.length then
    match parse_rs3_ptp_cmd rx with
    | none => (st, [DevAction.rearmOut])
    | some cmd =>
      let st1 := { st with last_rx_layout := cmd.layout }
      if cmd.type = PTP_CT_DATA then
        handle_data st1 cmd rx
      else if ¬ cmd.type = PTP_CT_COMMAND then
        (st1, [DevAction.rearmOut])
      else
        let r := dispatch_command st1 cmd.code cmd.tid cmd.params cmd.param_count
        (r.1, r.2 ++ [DevAction.rearmOut])
  else
    (st, [DevAction.rearmOut])

-- ---------------------------------------------------------------------------
-- The bulk-IN completion handler (ptp_xfer_cb, IN branch)
-- ---------------------------------------------------------------------------

/-- One bulk-IN completion step: send the next continuation chunk, the owed
zero-length packet, or retire the stream (emitting the final OK response when
flagged). -/
def ptp_in_handler (st : DeviceState) : DeviceState × List DevAction :=
  if st.tx_stream_active = true then
    if st.tx_stream_payload_off < st.tx_stream_payload_len then
      let rem := st.tx_stream_payload_len - st.tx_stream_payload_off
      let chunk := min rem 512
      let bytes := (st.tx_stream_payload.drop st.tx_stream_payload_off).take chunk
      let buf1 := list_overwrite st.tx_buf 0 bytes
      ({ st with tx_buf := buf1,
                 tx_stream_payload_off := st.tx_stream_payload_off + chunk },
       [DevAction.xferChunk (buf1.take chunk)])
    else if st.tx_stream_need_zlp = true ∧ st.tx_stream_zlp_sent = false then
      ({ st with tx_stream_zlp_sent := true }, [DevAction.xferZLP])
    else
      let send_ok := st.tx_stream_send_ok_after
      let tid := st.tx_stream_tid
      let st1 := { st with tx_stream_active := false,
                           tx_stream_send_ok_after := false,
                           tx_stream_payload := [],
                           tx_stream_payload_len := 0,
                           tx_stream_payload_off := 0,
                           tx_stream_need_zlp := false,
                           tx_stream_zlp_sent := false }
      if send_ok = true then respond st1 PTP_RC_OK tid else (st1, [])
  else
    (st, [])

/-- Iterate `ptp_in_handler` for `fuel` completions, collecting the emitted
actions. -/
def run_in : Nat → DeviceState → DeviceState × List DevAction
  | 0, st => (st, [])
  | fuel + 1, st =>
    let r := ptp_in_handler st
    let r2 := run_in fuel r.1
    (r2.1, r.2 ++ r2.2)

/-- Split a payload into the continuation chunks the streamer sends
(512 bytes each except possibly the last). -/
def chunks_of (l : List Nat) : List (List Nat) :=
  if h : l = [] then []
  else
    have : (l.drop 512).length < l.length := by
      cases l with
      | nil => exact absurd rfl h
      | cons a t => simp [List.length_drop]; omega
    l.take 512 :: chunks_of (l.drop 512)
termination_by l.length

-- ---------------------------------------------------------------------------
-- Control-request handler (ptp_control_xfer_cb, class requests, SETUP stage)
-- ---------------------------------------------------------------------------

def PTP_REQ_CANCEL : Nat := 0x64
def PTP_REQ_GET_EXT_EVENT_DATA : Nat := 0x65
def PTP_REQ_RESET : Nat := 0x66
def PTP_REQ_GET_DEVICE_STATUS : Nat := 0x67

/-- How the SETUP stage of a class request is answered: a zero-length status
handshake, a data stage with the given bytes, or a stall. -/
inductive CtrlReply where
  | statusAck
  | dataStage (bytes : List Nat)
  | stall
deriving DecidableEq, Repr

/-- `ptp_control_xfer_cb` restricted to class-scoped, interface-addressed
requests at the SETUP stage (`bRequest` and `wLength` taken from the setup
packet). -/
def ptp_control_class_request (st : DeviceState) (bRequest wLength : Nat) :
    DeviceState × CtrlReply :=
  if bRequest = PTP_REQ_GET_DEVICE_STATUS then
    let bytes := [4, 0, PTP_RC_OK % 256, PTP_RC_OK / 256]
    let buf1 := list_overwrite st.ctrl_buf 0 bytes
    ({ st with ctrl_buf := buf1 }, CtrlReply.dataStage (buf1.take 4))
  else if bRequest = PTP_REQ_CANCEL then
    let wlen := min wLength 64
    (st, CtrlReply.dataStage (st.ctrl_buf.take wlen))
  else if bRequest = PTP_REQ_RESET then
    ({ st with waiting_data := false, waiting_data_code := 0,
               waiting_data_tid := 0, session_id := 0,
               tx_stream_active := false, tx_stream_send_ok_after := false,
               tx_stream_payload := [], tx_stream_payload_len := 0,
               tx_stream_payload_off := 0, tx_stream_need_zlp := false,
               tx_stream_zlp_sent := false },
     CtrlReply.statusAck)
  else if bRequest = PTP_REQ_GET_EXT_EVENT_DATA then
    let wlen := min wLength 64
    let buf1 := list_overwrite st.ctrl_buf 0 (List.replicate wlen 0)
    ({ st with ctrl_buf := buf1 }, CtrlReply.dataStage (buf1.take wlen))
  else
    (st, CtrlReply.statusAck)

-- ---------------------------------------------------------------------------
-- Frame Tunnel framing (ptp_proxy_server.c)
-- ---------------------------------------------------------------------------

/-- Big-endian 32-bit serialisation (the four `hdr` bytes of `send_frame`). -/
def be32 (v : Nat) : List Nat :=
  [v / 2 ^ 24 % 256, v / 2 ^ 16 % 256, v / 2 ^ 8 % 256, v % 256]

/-- `rs3_ptp_proxy_send_frame`: the exact bytes written to the socket —
4-byte big-endian `payload_len + 1` (as a 32-bit value), the type byte, then
the payload verbatim. -/
def rs3_ptp_proxy_send_frame (ty : Nat) (payload : List Nat) : List Nat :=
  let total := (payload.length + 1) % 2 ^ 32
  be32 total ++ [ty] ++ payload

/-- `rs3_ptp_proxy_recv_frame` reading from a byte stream: reads the 5-byte
header, rejects `total = 0` and payloads beyond `out_cap`, then reads the
payload.  `none` covers every error return (socket failure or timeout when
the stream is too short, `ESP_FAIL` on a zero total, `ESP_ERR_INVALID_SIZE`
on overflow). -/
def rs3_ptp_proxy_recv_frame (stream : List Nat) (out_cap : Nat) :
    Option (Nat × List Nat) :=
  if stream.length < 5 then none
  else
    let total := stream.getD 0 0 * 2 ^ 24 + stream.getD 1 0 * 2 ^ 16 +
      stream.getD 2 0 * 2 ^ 8 + stream.getD 3 0
    let ty := stream.getD 4 0
    if total = 0 then none
    else
      let payload_len := total - 1
      if payload_len > out_cap then none
      else if stream.length < 5 + payload_len then none
      else some (ty, (stream.drop 5).take payload_len)

-- ---------------------------------------------------------------------------
-- Helper lemmas
-- ---------------------------------------------------------------------------

theorem mk_parsed_layout (buf : List Nat) (l : rs3_ptp_layout_t)
    (t c ti hb : Nat) : (mk_parsed buf l t c ti hb).layout = l := rfl

theorem mk_parsed_type (buf : List Nat) (l : rs3_ptp_layout_t)
    (t c ti hb : Nat) : (mk_parsed buf l t c ti hb).type = t := rfl

theorem mk_parsed_code (buf : List Nat) (l : rs3_ptp_layout_t)
    (t c ti hb : Nat) : (mk_parsed buf l t c ti hb).code = c := rfl

theorem mk_parsed_tid (buf : List Nat) (l : rs3_ptp_layout_t)
    (t c ti hb : Nat) : (mk_parsed buf l t c ti hb).tid = ti := rfl

theorem mk_parsed_param_count (buf : List Nat) (l : rs3_ptp_layout_t)
    (t c ti hb : Nat) :
    (mk_parsed buf l t c ti hb).param_count = (decode_params buf hb).1 := rfl

theorem mk_parsed_header_bytes (buf : List Nat) (l : rs3_ptp_layout_t)
    (t c ti hb : Nat) : (mk_parsed buf l t c ti hb).header_bytes = hb := rfl

theorem le16_length (v : Nat) : (le16 v).length = 2 := rfl

theorem le32_length (v : Nat) : (le32 v).length = 4 := rfl

theorem flatMap_le32_length (ps : List Nat) : (ps.flatMap le32).length = 4 * ps.length := by
  induction ps with
  | nil => simp
  | cons a t ih => simp [List.flatMap_cons, ih, le32]; omega

theorem write_ptp_hdr_length (layout : rs3_ptp_layout_t) (len ty code tid : Nat) :
    (write_ptp_hdr layout len ty code tid).length =
      ptp_hdr_bytes_for_layout layout := by
  cases layout <;> simp [write_ptp_hdr, ptp_hdr_bytes_for_layout, le16, le32]

theorem decode_params_le (buf : List Nat) (hb : Nat) (h : hb ≤ buf.length) :
    (decode_params buf hb).1 ≤ 5 ∧
      hb + 4 * (decode_params buf hb).1 ≤ buf.length := by
  unfold decode_params
  dsimp only
  split_ifs with h1
  · dsimp only
    omega
  · dsimp only
    omega

/-- `send_response` always emits a StandardLengthPrefixed response header: it
forces the standard layout internally and restores the caller's layout. -/
theorem send_response_eq (st : DeviceState) (code tid : Nat) :
    send_response st code tid =
      ({ st with tx_buf :=
          write_ptp_hdr .std_len 12 PTP_CT_RESPONSE code tid ++ st.tx_buf.drop 12 },
       write_ptp_hdr .std_len 12 PTP_CT_RESPONSE code tid) := by
  have h12 : (write_ptp_hdr .std_len 12 PTP_CT_RESPONSE code tid).length = 12 := by
    simp [write_ptp_hdr_length, ptp_hdr_bytes_for_layout]
  unfold send_response list_overwrite
  dsimp only
  rw [List.take_zero, List.nil_append, Nat.zero_add, h12,
    List.take_left' h12]

theorem list_overwrite_zero (buf bs : List Nat) :
    list_overwrite buf 0 bs = bs ++ buf.drop bs.length := by
  simp [list_overwrite]

theorem list_overwrite_at (pre post bs : List Nat) (off : Nat)
    (h : pre.length = off) :
    list_overwrite (pre ++ post) off bs =
      pre ++ (bs ++ post.drop bs.length) := by
  unfold list_overwrite
  rw [List.take_left' h, ← h, ← List.drop_drop, List.drop_left,
    List.append_assoc]

theorem take_append_exact (pre mid post : List Nat) (n : Nat)
    (h : pre.length + mid.length = n) :
    (pre ++ (mid ++ post)).take n = pre ++ mid := by
  rw [← List.append_assoc]
  exact List.take_left' (by simp [h])

/-- `tx_stream_start` under the (invariant) standard transmit layout: the
first transfer is the 12-byte standard Data header followed by the initial
payload chunk (up to `512 - 12` bytes). -/
theorem tx_stream_start_eq (st : DeviceState) (op tid : Nat)
    (payload : List Nat) (ok : Bool) (hl : st.ptp_layout = .std_len) :
    tx_stream_start st op tid payload ok =
      ({ st with
          tx_stream_active := true, tx_stream_code := op, tx_stream_tid := tid,
          tx_stream_payload := payload,
          tx_stream_payload_len := payload.length,
          tx_stream_payload_off := min payload.length 500,
          tx_stream_need_zlp := decide ((12 + payload.length) % 64 = 0),
          tx_stream_zlp_sent := false, tx_stream_send_ok_after := ok,
          tx_buf :=
            write_ptp_hdr .std_len (12 + payload.length) PTP_CT_DATA op tid ++
              (payload.take (min payload.length 500) ++
                st.tx_buf.drop (12 + min payload.length 500)) },
       write_ptp_hdr .std_len (12 + payload.length) PTP_CT_DATA op tid ++
         payload.take (min payload.length 500)) := by
  have h12 : (write_ptp_hdr .std_len (12 + payload.length) PTP_CT_DATA op tid).length
      = 12 := by
    simp [write_ptp_hdr_length, ptp_hdr_bytes_for_layout]
  have hfp : (payload.take (min payload.length 500)).length
      = min payload.length 500 := by
    simp
  unfold tx_stream_start
  dsimp only
  rw [hl]
  rw [show (512 : Nat) - 12 = 500 from rfl]
  rw [list_overwrite_zero, h12]
  rw [list_overwrite_at _ _ _ _ h12, hfp, List.drop_drop]
  rw [take_append_exact _ _ _ _ (by rw [h12, hfp])]

-- ---------------------------------------------------------------------------
-- C10: decoder bounds invariant
-- ---------------------------------------------------------------------------

/-- C10: for every buffer on which `parse_rs3_ptp_cmd` succeeds, the decoded
result has its kind in 1..4, a header size in {9, 10, 11, 12} that fits in
the buffer, at most 5 parameters, and all parameter bytes inside the received
bytes (`header_bytes + 4 * param_count ≤ n`). -/
theorem C10_decoder_bounds (buf : List Nat) (out : rs3_ptp_cmd_parsed_t)
    (h : parse_rs3_ptp_cmd buf = some out) :
    (1 ≤ out.type ∧ out.type ≤ 4) ∧
    (out.header_bytes = 9 ∨ out.header_bytes = 10 ∨ out.header_bytes = 11 ∨
      out.header_bytes = 12) ∧
    out.header_bytes ≤ buf.length ∧
    out.param_count ≤ 5 ∧
    out.header_bytes + 4 * out.param_count ≤ buf.length := by
  unfold parse_rs3_ptp_cmd at h
  dsimp only at h
  split_ifs at h with h1 h2 h3 h4 h5 h6
  all_goals
    injection h with h
    subst h
    simp only [mk_parsed_type, mk_parsed_param_count, mk_parsed_header_bytes]
    refine ⟨⟨by omega, by omega⟩, by simp, by omega, ?_, ?_⟩
  all_goals first
    | exact (decode_params_le buf _ (by omega)).1
    | exact (decode_params_le buf _ (by omega)).2

/-- Witness for C10 at a concrete 13-byte standard Command container. -/
theorem C10_decoder_bounds_witness :
    (1 ≤ (⟨.std_len, 1, 0x1002, 7, [], 0, 12⟩ : rs3_ptp_cmd_parsed_t).type ∧
      (⟨.std_len, 1, 0x1002, 7, [], 0, 12⟩ : rs3_ptp_cmd_parsed_t).type ≤ 4) ∧
    ((⟨.std_len, 1, 0x1002, 7, [], 0, 12⟩ : rs3_ptp_cmd_parsed_t).header_bytes = 9 ∨
      (⟨.std_len, 1, 0x1002, 7, [], 0, 12⟩ : rs3_ptp_cmd_parsed_t).header_bytes = 10 ∨
      (⟨.std_len, 1, 0x1002, 7, [], 0, 12⟩ : rs3_ptp_cmd_parsed_t).header_bytes = 11 ∨
      (⟨.std_len, 1, 0x1002, 7, [], 0, 12⟩ : rs3_ptp_cmd_parsed_t).header_bytes = 12) ∧
    (⟨.std_len, 1, 0x1002, 7, [], 0, 12⟩ : rs3_ptp_cmd_parsed_t).header_bytes ≤
      ([13, 0, 0, 0, 1, 0, 2, 16, 7, 0, 0, 0, 9] : List Nat).length ∧
    (⟨.std_len, 1, 0x1002, 7, [], 0, 12⟩ : rs3_ptp_cmd_parsed_t).param_count ≤ 5 ∧
    (⟨.std_len, 1, 0x1002, 7, [], 0, 12⟩ : rs3_ptp_cmd_parsed_t).header_bytes +
        4 * (⟨.std_len, 1, 0x1002, 7, [], 0, 12⟩ : rs3_ptp_cmd_parsed_t).param_count ≤
      ([13, 0, 0, 0, 1, 0, 2, 16, 7, 0, 0, 0, 9] : List Nat).length :=
  C10_decoder_bounds [13, 0, 0, 0, 1, 0, 2, 16, 7, 0, 0, 0, 9]
    ⟨.std_len, 1, 0x1002, 7, [], 0, 12⟩ (by decide)

-- ---------------------------------------------------------------------------
-- C9: Frame Tunnel framing round-trip
-- ---------------------------------------------------------------------------

/-- C9: `rs3_ptp_proxy_send_frame` emits exactly `1 + len(p)` as a 4-byte
big-endian length, then the type byte, then the payload verbatim; and
`rs3_ptp_proxy_recv_frame` on exactly that byte sequence succeeds and returns
the same type and payload, whenever the payload fits the receiver's
capacity. -/
theorem C9_frame_roundtrip (ty : Nat) (payload : List Nat) (out_cap : Nat)
    (hty : ty < 256) (hcap : payload.length ≤ out_cap)
    (hfit : payload.length + 1 < 2 ^ 32) :
    rs3_ptp_proxy_send_frame ty payload =
      be32 (payload.length + 1) ++ ty :: payload ∧
    rs3_ptp_proxy_recv_frame (rs3_ptp_proxy_send_frame ty payload) out_cap =
      some (ty, payload) := by
  have hmod : (payload.length + 1) % 2 ^ 32 = payload.length + 1 :=
    Nat.mod_eq_of_lt hfit
  have hsend : rs3_ptp_proxy_send_frame ty payload =
      be32 (payload.length + 1) ++ ty :: payload := by
    unfold rs3_ptp_proxy_send_frame
    dsimp only
    rw [hmod]
    simp
  refine ⟨hsend, ?_⟩
  rw [hsend]
  unfold rs3_ptp_proxy_recv_frame
  simp only [be32, List.cons_append, List.nil_append, List.length_cons,
    List.getD_cons_zero, List.getD_cons_succ]
  split_ifs with hA hB hC hD
  · exact absurd hA (by omega)
  · exact absurd hB (by omega)
  · exact absurd hC (by omega)
  · exact absurd hD (by omega)
  · simp only [List.drop_succ_cons, List.drop_zero, Option.some.injEq,
      Prod.mk.injEq]
    exact ⟨trivial, List.take_of_length_le (by omega)⟩

/-- Witness for C9: a `RawDeviceToHost` (0x10) frame with payload
`[0xAA, 0xBB, 0xCC]` and a 64-byte receive buffer. -/
theorem C9_frame_roundtrip_witness :
    rs3_ptp_proxy_send_frame 0x10 [0xAA, 0xBB, 0xCC] =
      be32 ([0xAA, 0xBB, 0xCC].length + 1) ++ 0x10 :: [0xAA, 0xBB, 0xCC] ∧
    rs3_ptp_proxy_recv_frame
        (rs3_ptp_proxy_send_frame 0x10 [0xAA, 0xBB, 0xCC]) 64 =
      some (0x10, [0xAA, 0xBB, 0xCC]) :=
  C9_frame_roundtrip 0x10 [0xAA, 0xBB, 0xCC] 64 (by decide) (by decide)
    (by decide)

-- ---------------------------------------------------------------------------
-- C8: Get-Extended-Event-Data (corrected: the length is clamped to 64)
-- ---------------------------------------------------------------------------

/-- C8 counterexample: for a host-requested length of 65 the handler does NOT
return a 65-byte zero-filled data stage (the code clamps `wLength` to the
64-byte control scratch buffer). -/
theorem C8_get_ext_event_counterexample :
    (ptp_control_class_request initState PTP_REQ_GET_EXT_EVENT_DATA 65).2 ≠
      CtrlReply.dataStage (List.replicate 65 0) := by
  decide

/-- C8 amended: the Get-Extended-Event-Data handler answers every request
with a zero-filled data stage of `min w 64` bytes (the host-requested length
clamped to the 64-byte control buffer) and never stalls. -/
theorem C8_get_ext_event_amended (st : DeviceState) (w : Nat) :
    (ptp_control_class_request st PTP_REQ_GET_EXT_EVENT_DATA w).2 =
      CtrlReply.dataStage (List.replicate (min w 64) 0) ∧
    (ptp_control_class_request st PTP_REQ_GET_EXT_EVENT_DATA w).2 ≠
      CtrlReply.stall := by
  have hlen : (List.replicate (min w 64) 0).length = min w 64 := by simp
  unfold ptp_control_class_request
  dsimp only
  rw [if_neg (by decide), if_neg (by decide), if_neg (by decide),
    if_pos rfl]
  rw [list_overwrite_zero, hlen, List.take_append_eq_append_take,
    List.take_of_length_le (by rw [hlen])]
  rw [hlen]
  simp

/-- Witness for C8 amended at the 65-byte request of the counterexample. -/
theorem C8_get_ext_event_amended_witness :
    (ptp_control_class_request initState PTP_REQ_GET_EXT_EVENT_DATA 65).2 =
      CtrlReply.dataStage (List.replicate (min 65 64) 0) ∧
    (ptp_control_class_request initState PTP_REQ_GET_EXT_EVENT_DATA 65).2 ≠
      CtrlReply.stall :=
  C8_get_ext_event_amended initState 65

-- ---------------------------------------------------------------------------
-- C7: Reset postcondition (corrected: command_param0 and the stream's
-- code/tid fields survive the reset)
-- ---------------------------------------------------------------------------

/-- C7 counterexample: Reset does NOT clear the Two-Stage Wait's
`command_param0` (`s_waiting_data_p0`): starting from a state with
`command_param0 = 5`, it is still 5 — not 0 — afterwards. -/
theorem C7_reset_counterexample :
    (ptp_control_class_request { initState with waiting_data_p0 := 5 }
        PTP_REQ_RESET 0).1.waiting_data_p0 ≠ 0 := by
  decide

/-- C7 amended: Reset clears the Two-Stage Wait's armed flag, expected code
and expected transaction id (but not `command_param0`), the latched session
id, and the Stream Context's active flag, payload view, length, offset, ZLP
flags and emit-OK flag (but not the stream's code and tid fields), while
still acknowledging the control transfer with a status handshake and leaving
every other field of the protocol state unchanged. -/
theorem C7_reset_amended (st : DeviceState) (w : Nat) :
    ((ptp_control_class_request st PTP_REQ_RESET w).1.waiting_data = false ∧
     (ptp_control_class_request st PTP_REQ_RESET w).1.waiting_data_code = 0 ∧
     (ptp_control_class_request st PTP_REQ_RESET w).1.waiting_data_tid = 0 ∧
     (ptp_control_class_request st PTP_REQ_RESET w).1.session_id = 0 ∧
     (ptp_control_class_request st PTP_REQ_RESET w).1.tx_stream_active = false ∧
     (ptp_control_class_request st PTP_REQ_RESET w).1.tx_stream_send_ok_after = false ∧
     (ptp_control_class_request st PTP_REQ_RESET w).1.tx_stream_payload = [] ∧
     (ptp_control_class_request st PTP_REQ_RESET w).1.tx_stream_payload_len = 0 ∧
     (ptp_control_class_request st PTP_REQ_RESET w).1.tx_stream_payload_off = 0 ∧
     (ptp_control_class_request st PTP_REQ_RESET w).1.tx_stream_need_zlp = false ∧
     (ptp_control_class_request st PTP_REQ_RESET w).1.tx_stream_zlp_sent = false) ∧
    (ptp_control_class_request st PTP_REQ_RESET w).2 = CtrlReply.statusAck ∧
    ((ptp_control_class_request st PTP_REQ_RESET w).1.waiting_data_p0 =
        st.waiting_data_p0 ∧
     (ptp_control_class_request st PTP_REQ_RESET w).1.tx_stream_code =
        st.tx_stream_code ∧
     (ptp_control_class_request st PTP_REQ_RESET w).1.tx_stream_tid =
        st.tx_stream_tid ∧
     (ptp_control_class_request st PTP_REQ_RESET w).1.recording = st.recording ∧
     (ptp_control_class_request st PTP_REQ_RESET w).1.ptp_layout = st.ptp_layout ∧
     (ptp_control_class_request st PTP_REQ_RESET w).1.last_rx_layout =
        st.last_rx_layout ∧
     (ptp_control_class_request st PTP_REQ_RESET w).1.tx_buf = st.tx_buf ∧
     (ptp_control_class_request st PTP_REQ_RESET w).1.ctrl_buf = st.ctrl_buf) := by
  unfold ptp_control_class_request
  rw [if_neg (by decide), if_neg (by decide), if_pos rfl]
  exact ⟨⟨rfl, rfl, rfl, rfl, rfl, rfl, rfl, rfl, rfl, rfl, rfl⟩, rfl,
    rfl, rfl, rfl, rfl, rfl, rfl, rfl, rfl⟩

/-- Witness for C7 amended at the counterexample's concrete state. -/
theorem C7_reset_amended_witness :
    (ptp_control_class_request { initState with waiting_data_p0 := 5 }
        PTP_REQ_RESET 0).2 = CtrlReply.statusAck ∧
    (ptp_control_class_request { initState with waiting_data_p0 := 5 }
        PTP_REQ_RESET 0).1.waiting_data = false ∧
    (ptp_control_class_request { initState with waiting_data_p0 := 5 }
        PTP_REQ_RESET 0).1.waiting_data_p0 =
      ({ initState with waiting_data_p0 := 5 } : DeviceState).waiting_data_p0 :=
  ⟨(C7_reset_amended { initState with waiting_data_p0 := 5 } 0).2.1,
   (C7_reset_amended { initState with waiting_data_p0 := 5 } 0).1.1,
   (C7_reset_amended { initState with waiting_data_p0 := 5 } 0).2.2.1⟩

-- ---------------------------------------------------------------------------
-- C5 / C6: the two-stage data phase
-- ---------------------------------------------------------------------------

/-- The recording events published in a list of actions. -/
def published_events (as : List DevAction) : List DevAction :=
  as.filter fun a =>
    match a with
    | DevAction.publishStart _ _ => true
    | DevAction.publishStop _ _ => true
    | _ => false

/-- Is this action a Response-container transfer? -/
def is_resp : DevAction → Bool
  | DevAction.xferResp _ => true
  | _ => false

/-- The Response-container transfers in a list of actions. -/
def resp_actions (as : List DevAction) : List DevAction :=
  as.filter is_resp

theorem parse_length_ge (buf : List Nat) (out : rs3_ptp_cmd_parsed_t)
    (h : parse_rs3_ptp_cmd buf = some out) : 8 ≤ buf.length := by
  unfold parse_rs3_ptp_cmd at h
  dsimp only at h
  split_ifs at h
  all_goals omega

theorem respond_eq (st : DeviceState) (code tid : Nat) :
    respond st code tid =
      ({ st with tx_buf :=
          write_ptp_hdr .std_len 12 PTP_CT_RESPONSE code tid ++ st.tx_buf.drop 12 },
       [DevAction.xferResp (write_ptp_hdr .std_len 12 PTP_CT_RESPONSE code tid)]) := by
  unfold respond
  rw [send_response_eq]

theorem getD_drop_take (l : List Nat) (m len : Nat) (h : 1 ≤ len) :
    ((l.drop m).take len).getD 0 0 = l.getD m 0 := by
  simp [List.getD, List.getElem?_take, Nat.lt_of_lt_of_le Nat.zero_lt_one h]

/-- C5: a Two-Stage Wait armed with a non-full-press `command_param0`,
followed by a matching Data container — whatever its payload, including one
starting with the 0x02 "recording started" marker — publishes zero recording
events and leaves the recording flag unchanged. -/
theorem C5_half_press_gating (st : DeviceState) (rx : List Nat)
    (cmd : rs3_ptp_cmd_parsed_t)
    (hw : st.waiting_data = true)
    (hp : st.waiting_data_p0 ≠ 0x0000D2C8)
    (hparse : parse_rs3_ptp_cmd rx = some cmd)
    (hty : cmd.type = PTP_CT_DATA)
    (hcode : cmd.code = st.waiting_data_code)
    (htid : cmd.tid = st.waiting_data_tid) :
    published_events (ptp_out_handler st rx).2 = [] ∧
    (ptp_out_handler st rx).1.recording = st.recording := by
  have h8 : 8 ≤ rx.length := parse_length_ge rx cmd hparse
  unfold ptp_out_handler
  rw [if_pos h8, hparse]
  dsimp only
  rw [if_pos hty]
  unfold handle_data
  dsimp only
  rw [if_pos ⟨hw, hcode, htid⟩, if_neg hp]
  rw [respond_eq]
  dsimp only
  constructor
  · rfl
  · rfl

/-- Witness for C5: wait armed for op 0x9207, tid 9 with the half-press
parameter 0x0000D2C1; Data container in standard layout with payload byte
0x02. -/
theorem C5_half_press_gating_witness :
    published_events
      (ptp_out_handler
        { initState with waiting_data := true, waiting_data_code := 0x9207,
                         waiting_data_tid := 9, waiting_data_p0 := 0x0000D2C1 }
        [17, 0, 0, 0, 2, 0, 7, 146, 9, 0, 0, 0, 2]).2 = [] ∧
    (ptp_out_handler
        { initState with waiting_data := true, waiting_data_code := 0x9207,
                         waiting_data_tid := 9, waiting_data_p0 := 0x0000D2C1 }
        [17, 0, 0, 0, 2, 0, 7, 146, 9, 0, 0, 0, 2]).1.recording =
      ({ initState with waiting_data := true, waiting_data_code := 0x9207,
                        waiting_data_tid := 9,
                        waiting_data_p0 := 0x0000D2C1 } : DeviceState).recording :=
  C5_half_press_gating
    { initState with waiting_data := true, waiting_data_code := 0x9207,
                     waiting_data_tid := 9, waiting_data_p0 := 0x0000D2C1 }
    [17, 0, 0, 0, 2, 0, 7, 146, 9, 0, 0, 0, 2]
    ⟨.std_len, 2, 0x9207, 9, [], 0, 12⟩
    rfl (by decide) (by decide) rfl rfl rfl

/-- C6: with the Two-Stage Wait armed, a matching Data container whose first
payload byte is neither the stop marker 0x01 nor the start marker 0x02
publishes no event and changes no recording/session/stream state, yet elicits
exactly one OK Response carrying the container's transaction id (and the wait
itself is disarmed, as its lifecycle prescribes for any matching Data
container). -/
theorem C6_unknown_marker (st : DeviceState) (rx : List Nat)
    (cmd : rs3_ptp_cmd_parsed_t)
    (hw : st.waiting_data = true)
    (hparse : parse_rs3_ptp_cmd rx = some cmd)
    (hty : cmd.type = PTP_CT_DATA)
    (hcode : cmd.code = st.waiting_data_code)
    (htid : cmd.tid = st.waiting_data_tid)
    (hlen : cmd.header_bytes < rx.length)
    (hb1 : rx.getD cmd.header_bytes 0 ≠ 0x01)
    (hb2 : rx.getD cmd.header_bytes 0 ≠ 0x02) :
    published_events (ptp_out_handler st rx).2 = [] ∧
    resp_actions (ptp_out_handler st rx).2 =
      [DevAction.xferResp
        (write_ptp_hdr .std_len 12 PTP_CT_RESPONSE PTP_RC_OK cmd.tid)] ∧
    (ptp_out_handler st rx).1.recording = st.recording ∧
    (ptp_out_handler st rx).1.session_id = st.session_id ∧
    (ptp_out_handler st rx).1.tx_stream_active = st.tx_stream_active ∧
    (ptp_out_handler st rx).1.waiting_data = false := by
  have h8 : 8 ≤ rx.length := parse_length_ge rx cmd hparse
  unfold ptp_out_handler
  rw [if_pos h8, hparse]
  dsimp only
  rw [if_pos hty]
  unfold handle_data
  dsimp only
  rw [if_pos ⟨hw, hcode, htid⟩]
  have hplen : (if rx.length > cmd.header_bytes then
      rx.length - cmd.header_bytes else 0) = rx.length - cmd.header_bytes :=
    if_pos hlen
  rw [hplen]
  have hbyte : ((rx.drop cmd.header_bytes).take
      (rx.length - cmd.header_bytes)).getD 0 0 = rx.getD cmd.header_bytes 0 :=
    getD_drop_take rx cmd.header_bytes (rx.length - cmd.header_bytes)
      (by omega)
  by_cases hfp : st.waiting_data_p0 = 0x0000D2C8
  · rw [if_pos hfp, if_pos (by omega : 1 ≤ rx.length - cmd.header_bytes)]
    rw [hbyte]
    rw [if_neg hb2, if_neg hb1]
    rw [respond_eq]
    exact ⟨rfl, rfl, rfl, rfl, rfl, rfl⟩
  · rw [if_neg hfp]
    rw [respond_eq]
    exact ⟨rfl, rfl, rfl, rfl, rfl, rfl⟩

/-- Witness for C6: wait armed for op 0x9207, tid 9 with the full-press
parameter; matching Data container with unknown payload byte 0x07. -/
theorem C6_unknown_marker_witness :
    published_events
      (ptp_out_handler
        { initState with waiting_data := true, waiting_data_code := 0x9207,
                         waiting_data_tid := 9, waiting_data_p0 := 0x0000D2C8 }
        [17, 0, 0, 0, 2, 0, 7, 146, 9, 0, 0, 0, 7]).2 = [] ∧
    resp_actions
      (ptp_out_handler
        { initState with waiting_data := true, waiting_data_code := 0x9207,
                         waiting_data_tid := 9, waiting_data_p0 := 0x0000D2C8 }
        [17, 0, 0, 0, 2, 0, 7, 146, 9, 0, 0, 0, 7]).2 =
      [DevAction.xferResp
        (write_ptp_hdr .std_len 12 PTP_CT_RESPONSE PTP_RC_OK
          (⟨.std_len, 2, 0x9207, 9, [], 0, 12⟩ : rs3_ptp_cmd_parsed_t).tid)] ∧
    (ptp_out_handler
        { initState with waiting_data := true, waiting_data_code := 0x9207,
                         waiting_data_tid := 9, waiting_data_p0 := 0x0000D2C8 }
        [17, 0, 0, 0, 2, 0, 7, 146, 9, 0, 0, 0, 7]).1.recording =
      ({ initState with waiting_data := true, waiting_data_code := 0x9207,
                        waiting_data_tid := 9,
                        waiting_data_p0 := 0x0000D2C8 } : DeviceState).recording ∧
    (ptp_out_handler
        { initState with waiting_data := true, waiting_data_code := 0x9207,
                         waiting_data_tid := 9, waiting_data_p0 := 0x0000D2C8 }
        [17, 0, 0, 0, 2, 0, 7, 146, 9, 0, 0, 0, 7]).1.session_id =
      ({ initState with waiting_data := true, waiting_data_code := 0x9207,
                        waiting_data_tid := 9,
                        waiting_data_p0 := 0x0000D2C8 } : DeviceState).session_id ∧
    (ptp_out_handler
        { initState with waiting_data := true, waiting_data_code := 0x9207,
                         waiting_data_tid := 9, waiting_data_p0 := 0x0000D2C8 }
        [17, 0, 0, 0, 2, 0, 7, 146, 9, 0, 0, 0, 7]).1.tx_stream_active =
      ({ initState with waiting_data := true, waiting_data_code := 0x9207,
                        waiting_data_tid := 9,
                        waiting_data_p0 := 0x0000D2C8 } : DeviceState).tx_stream_active ∧
    (ptp_out_handler
        { initState with waiting_data := true, waiting_data_code := 0x9207,
                         waiting_data_tid := 9, waiting_data_p0 := 0x0000D2C8 }
        [17, 0, 0, 0, 2, 0, 7, 146, 9, 0, 0, 0, 7]).1.waiting_data = false :=
  C6_unknown_marker
    { initState with waiting_data := true, waiting_data_code := 0x9207,
                     waiting_data_tid := 9, waiting_data_p0 := 0x0000D2C8 }
    [17, 0, 0, 0, 2, 0, 7, 146, 9, 0, 0, 0, 7]
    ⟨.std_len, 2, 0x9207, 9, [], 0, 12⟩
    rfl (by decide) (by decide) rfl rfl (by decide) (by decide) (by decide)

-- ---------------------------------------------------------------------------
-- C1: layout detection priority
-- ---------------------------------------------------------------------------

/-- C1: `parse_rs3_ptp_cmd` is exactly priority-ordered decoding — it tries
Pad24, Pad16, Pad8, Standard, Alternate in that fixed order and returns the
first layout whose pad bytes are zero (where required) and whose 16-bit
discriminator lies in 1..4; in particular a buffer that is a valid
Pad8NoLength encoding and simultaneously a valid StandardLengthPrefixed
encoding decodes as Pad8NoLength. -/
theorem C1_layout_priority (buf : List Nat) :
    parse_rs3_ptp_cmd buf = decode_by_priority buf ∧
    (valid_in_layout .dji_pad8_nolen buf → valid_in_layout .std_len buf →
      (parse_rs3_ptp_cmd buf).map (fun c => c.layout) =
        some rs3_ptp_layout_t.dji_pad8_nolen) := by
  have heq : parse_rs3_ptp_cmd buf = decode_by_priority buf := by
    unfold parse_rs3_ptp_cmd decode_by_priority layout_priority try_layout
    simp only [List.findSome?]
    by_cases h8 : buf.length < 8
    · rw [if_pos h8]
      rw [if_neg (by omega), if_neg (by omega), if_neg (by omega),
        if_neg (by omega), if_neg (by omega)]
    · rw [if_neg h8]
      split_ifs <;> rfl
  refine ⟨heq, fun h8v hstd => ?_⟩
  unfold valid_in_layout try_layout at h8v hstd
  rw [Option.isSome_iff_exists] at h8v hstd
  obtain ⟨c8, hc8⟩ := h8v
  obtain ⟨cs, hcs⟩ := hstd
  dsimp only at hc8 hcs
  split_ifs at hc8 with hg8
  split_ifs at hcs with hgs
  obtain ⟨hn9, hz0, hlo, hhi⟩ := hg8
  obtain ⟨hn12, hslo, hshi⟩ := hgs
  unfold parse_rs3_ptp_cmd
  dsimp only
  unfold rd_le16 at hlo hhi ⊢
  simp only [Nat.reduceAdd] at hlo hhi ⊢
  rw [if_neg (by omega), if_neg (by omega), if_neg (by omega),
    if_pos (by omega)]
  simp [mk_parsed_layout]

/-- Witness for C1 at a buffer that is simultaneously a valid Pad8NoLength
encoding (pad byte 0, kind 1 at offset 1) and a valid StandardLengthPrefixed
encoding (kind 1 at offset 4): it decodes as Pad8NoLength. -/
theorem C1_layout_priority_witness :
    parse_rs3_ptp_cmd [0, 1, 0, 0, 1, 0, 0, 0, 0, 0, 0, 0] =
      decode_by_priority [0, 1, 0, 0, 1, 0, 0, 0, 0, 0, 0, 0] ∧
    (parse_rs3_ptp_cmd [0, 1, 0, 0, 1, 0, 0, 0, 0, 0, 0, 0]).map
        (fun c => c.layout) = some rs3_ptp_layout_t.dji_pad8_nolen :=
  ⟨(C1_layout_priority [0, 1, 0, 0, 1, 0, 0, 0, 0, 0, 0, 0]).1,
   (C1_layout_priority [0, 1, 0, 0, 1, 0, 0, 0, 0, 0, 0, 0]).2
     (by decide) (by decide)⟩

-- ---------------------------------------------------------------------------
-- C2: encode/decode round-trip (corrected for the Alternate layout)
-- ---------------------------------------------------------------------------

theorem decode_params_count (buf : List Nat) (hb p : Nat)
    (h : buf.length = hb + 4 * p) (hp : p ≤ 5) :
    (decode_params buf hb).1 = p := by
  unfold decode_params
  dsimp only
  split_ifs with h1
  · dsimp only
    omega
  · dsimp only
    omega

theorem parse_encode_pad8 (k o t : Nat) (rest L : List Nat)
    (hL : L = 0 :: k % 256 :: k / 256 % 256 :: o % 256 :: o / 256 % 256 ::
      t % 256 :: t / 2 ^ 8 % 256 :: t / 2 ^ 16 % 256 :: t / 2 ^ 24 % 256 ::
      rest)
    (hk1 : 1 ≤ k) (hk4 : k ≤ 4) (ho : o < 2 ^ 16) (ht : t < 2 ^ 32) :
    parse_rs3_ptp_cmd L = some (mk_parsed L .dji_pad8_nolen k o t 9) := by
  have hlen : L.length = 9 + rest.length := by rw [hL]; simp; omega
  have hd0 : L.getD 0 0 = 0 := by rw [hL]; rfl
  have hd1 : L.getD 1 0 = k % 256 := by rw [hL]; rfl
  have hr0 : rd_le16 L 0 = 256 * (k % 256) := by
    rw [hL]; unfold rd_le16; simp
  have hr1 : rd_le16 L 1 = k := by
    rw [hL]; unfold rd_le16; simp; omega
  have hr3 : rd_le16 L 3 = o := by
    rw [hL]; unfold rd_le16; simp; omega
  have hr5 : rd_le32 L 5 = t := by
    rw [hL]; unfold rd_le32; simp; omega
  unfold parse_rs3_ptp_cmd
  dsimp only
  rw [if_neg (by omega), if_neg (by omega), if_neg (by omega),
    if_pos (by refine ⟨by omega, hd0, ?_, ?_⟩ <;> omega)]
  rw [hr1, hr3, hr5]

theorem parse_encode_pad16 (k o t : Nat) (rest L : List Nat)
    (hL : L = 0 :: 0 :: k % 256 :: k / 256 % 256 :: o % 256 :: o / 256 % 256 ::
      t % 256 :: t / 2 ^ 8 % 256 :: t / 2 ^ 16 % 256 :: t / 2 ^ 24 % 256 ::
      rest)
    (hk1 : 1 ≤ k) (hk4 : k ≤ 4) (ho : o < 2 ^ 16) (ht : t < 2 ^ 32) :
    parse_rs3_ptp_cmd L = some (mk_parsed L .dji_pad16_nolen k o t 10) := by
  have hlen : L.length = 10 + rest.length := by rw [hL]; simp; omega
  have hd2 : L.getD 2 0 = k % 256 := by rw [hL]; rfl
  have hr0 : rd_le16 L 0 = 0 := by rw [hL]; unfold rd_le16; simp
  have hr2 : rd_le16 L 2 = k := by
    rw [hL]; unfold rd_le16; simp; omega
  have hr4 : rd_le16 L 4 = o := by
    rw [hL]; unfold rd_le16; simp; omega
  have hr6 : rd_le32 L 6 = t := by
    rw [hL]; unfold rd_le32; simp; omega
  unfold parse_rs3_ptp_cmd
  dsimp only
  rw [if_neg (by omega), if_neg (by omega),
    if_pos (by refine ⟨by omega, hr0, ?_, ?_⟩ <;> omega)]
  rw [hr2, hr4, hr6]

theorem parse_encode_pad24 (k o t : Nat) (rest L : List Nat)
    (hL : L = 0 :: 0 :: 0 :: k % 256 :: k / 256 % 256 :: o % 256 ::
      o / 256 % 256 :: t % 256 :: t / 2 ^ 8 % 256 :: t / 2 ^ 16 % 256 ::
      t / 2 ^ 24 % 256 :: rest)
    (hk1 : 1 ≤ k) (hk4 : k ≤ 4) (ho : o < 2 ^ 16) (ht : t < 2 ^ 32) :
    parse_rs3_ptp_cmd L = some (mk_parsed L .dji_pad24_nolen k o t 11) := by
  have hlen : L.length = 11 + rest.length := by rw [hL]; simp; omega
  have hd0 : L.getD 0 0 = 0 := by rw [hL]; rfl
  have hd1 : L.getD 1 0 = 0 := by rw [hL]; rfl
  have hd2 : L.getD 2 0 = 0 := by rw [hL]; rfl
  have hr3 : rd_le16 L 3 = k := by
    rw [hL]; unfold rd_le16; simp; omega
  have hr5 : rd_le16 L 5 = o := by
    rw [hL]; unfold rd_le16; simp; omega
  have hr7 : rd_le32 L 7 = t := by
    rw [hL]; unfold rd_le32; simp; omega
  unfold parse_rs3_ptp_cmd
  dsimp only
  rw [if_neg (by omega),
    if_pos (by refine ⟨by omega, hd0, hd1, hd2, ?_, ?_⟩ <;> omega)]
  rw [hr3, hr5, hr7]

theorem parse_encode_std (len k o t : Nat) (rest L : List Nat)
    (hL : L = len % 256 :: len / 2 ^ 8 % 256 :: len / 2 ^ 16 % 256 ::
      len / 2 ^ 24 % 256 :: k % 256 :: k / 256 % 256 :: o % 256 ::
      o / 256 % 256 :: t % 256 :: t / 2 ^ 8 % 256 :: t / 2 ^ 16 % 256 ::
      t / 2 ^ 24 % 256 :: rest)
    (hl12 : 12 ≤ len) (hl32 : len ≤ 32)
    (hk1 : 1 ≤ k) (hk4 : k ≤ 4) (ho : o < 2 ^ 16) (ht : t < 2 ^ 32) :
    parse_rs3_ptp_cmd L = some (mk_parsed L .std_len k o t 12) := by
  have hlen : L.length = 12 + rest.length := by rw [hL]; simp; omega
  have hd0 : L.getD 0 0 = len % 256 := by rw [hL]; rfl
  have hr0 : rd_le16 L 0 = len % 256 + 256 * (len / 2 ^ 8 % 256) := by
    rw [hL]; unfold rd_le16; simp
  have hr4 : rd_le16 L 4 = k := by
    rw [hL]; unfold rd_le16; simp; omega
  have hr6 : rd_le16 L 6 = o := by
    rw [hL]; unfold rd_le16; simp; omega
  have hr8 : rd_le32 L 8 = t := by
    rw [hL]; unfold rd_le32; simp; omega
  unfold parse_rs3_ptp_cmd
  dsimp only
  rw [if_neg (by omega), if_neg (by omega), if_neg (by omega),
    if_neg (by omega), if_pos (by refine ⟨by omega, ?_, ?_⟩ <;> omega)]
  rw [hr4, hr6, hr8]

theorem parse_encode_alt (len k o t : Nat) (rest L : List Nat)
    (hL : L = len % 256 :: len / 2 ^ 8 % 256 :: len / 2 ^ 16 % 256 ::
      len / 2 ^ 24 % 256 :: o % 256 :: o / 256 % 256 :: t % 256 ::
      t / 2 ^ 8 % 256 :: t / 2 ^ 16 % 256 :: t / 2 ^ 24 % 256 :: k % 256 ::
      k / 256 % 256 :: rest)
    (hl12 : 12 ≤ len) (hl32 : len ≤ 32)
    (hk1 : 1 ≤ k) (hk4 : k ≤ 4) (ho : o < 2 ^ 16) (ht : t < 2 ^ 32)
    (halt : ¬(1 ≤ o ∧ o ≤ 4)) :
    parse_rs3_ptp_cmd L = some (mk_parsed L .alt_len k o t 12) := by
  have hlen : L.length = 12 + rest.length := by rw [hL]; simp; omega
  have hd0 : L.getD 0 0 = len % 256 := by rw [hL]; rfl
  have hr0 : rd_le16 L 0 = len % 256 + 256 * (len / 2 ^ 8 % 256) := by
    rw [hL]; unfold rd_le16; simp
  have hr4 : rd_le16 L 4 = o := by
    rw [hL]; unfold rd_le16; simp; omega
  have hr6 : rd_le32 L 6 = t := by
    rw [hL]; unfold rd_le32; simp; omega
  have hr10 : rd_le16 L 10 = k := by
    rw [hL]; unfold rd_le16; simp; omega
  unfold parse_rs3_ptp_cmd
  dsimp only
  rw [if_neg (by omega), if_neg (by omega), if_neg (by omega),
    if_neg (by omega), if_neg (by omega),
    if_pos (by refine ⟨by omega, ?_, ?_⟩ <;> omega)]
  rw [hr10, hr4, hr6]

/-- C2 counterexample: in the Alternate layout with kind 1, operation code 1
(which lies in the discriminator range 1..4), tid 0 and no parameters, the
encoded buffer is misdetected as StandardLengthPrefixed: the decoded
operation code is 0, not the encoded 1 (and the decoded tid is 65536, not
0). -/
theorem C2_roundtrip_counterexample :
    parse_rs3_ptp_cmd (encode_in_layout .alt_len 1 1 0 []) =
      some ⟨.std_len, 1, 0, 65536, [], 0, 12⟩ ∧
    ¬((0 : Nat) = 1 ∧ (65536 : Nat) = 0 ∧
      rs3_ptp_layout_t.std_len = rs3_ptp_layout_t.alt_len) := by
  constructor
  · decide
  · decide

/-- C2 amended: for every layout, kind in 1..4, 16-bit operation code, 32-bit
transaction id and at most five parameters, decoding the encoded buffer
recovers the same layout, kind, operation code, transaction id and parameter
count — with the proviso, forced by the counterexample, that for the
AlternateLengthPrefixed layout the operation code must not itself lie in the
discriminator range 1..4 (otherwise the buffer is also a valid
StandardLengthPrefixed encoding, which is tried first). -/
theorem C2_roundtrip_amended (layout : rs3_ptp_layout_t) (kind op tid : Nat)
    (params : List Nat)
    (hk1 : 1 ≤ kind) (hk4 : kind ≤ 4) (hop : op < 2 ^ 16)
    (htid : tid < 2 ^ 32) (hp : params.length ≤ 5)
    (halt : layout = rs3_ptp_layout_t.alt_len → ¬(1 ≤ op ∧ op ≤ 4)) :
    (parse_rs3_ptp_cmd (encode_in_layout layout kind op tid params)).map
        (fun c => c.layout) = some layout ∧
    (parse_rs3_ptp_cmd (encode_in_layout layout kind op tid params)).map
        (fun c => c.type) = some kind ∧
    (parse_rs3_ptp_cmd (encode_in_layout layout kind op tid params)).map
        (fun c => c.code) = some op ∧
    (parse_rs3_ptp_cmd (encode_in_layout layout kind op tid params)).map
        (fun c => c.tid) = some tid ∧
    (parse_rs3_ptp_cmd (encode_in_layout layout kind op tid params)).map
        (fun c => c.param_count) = some params.length := by
  cases layout with
  | dji_pad8_nolen =>
    have hform : encode_in_layout .dji_pad8_nolen kind op tid params =
        0 :: kind % 256 :: kind / 256 % 256 :: op % 256 :: op / 256 % 256 ::
        tid % 256 :: tid / 2 ^ 8 % 256 :: tid / 2 ^ 16 % 256 ::
        tid / 2 ^ 24 % 256 :: params.flatMap le32 := by
      simp [encode_in_layout, write_ptp_hdr, le16, le32]
    have hparse := parse_encode_pad8 kind op tid (params.flatMap le32) _
      hform hk1 hk4 hop htid
    have hcnt : (decode_params (encode_in_layout .dji_pad8_nolen kind op tid
        params) 9).1 = params.length :=
      decode_params_count _ 9 params.length
        (by rw [hform]; simp only [List.length_cons, flatMap_le32_length];
            omega) hp
    rw [hparse]
    simp only [Option.map_some']
    exact ⟨rfl, by rw [mk_parsed_type], by rw [mk_parsed_code],
      by rw [mk_parsed_tid], by rw [mk_parsed_param_count, hcnt]⟩
  | dji_pad16_nolen =>
    have hform : encode_in_layout .dji_pad16_nolen kind op tid params =
        0 :: 0 :: kind % 256 :: kind / 256 % 256 :: op % 256 ::
        op / 256 % 256 :: tid % 256 :: tid / 2 ^ 8 % 256 ::
        tid / 2 ^ 16 % 256 :: tid / 2 ^ 24 % 256 :: params.flatMap le32 := by
      simp [encode_in_layout, write_ptp_hdr, le16, le32]
    have hparse := parse_encode_pad16 kind op tid (params.flatMap le32) _
      hform hk1 hk4 hop htid
    have hcnt : (decode_params (encode_in_layout .dji_pad16_nolen kind op tid
        params) 10).1 = params.length :=
      decode_params_count _ 10 params.length
        (by rw [hform]; simp only [List.length_cons, flatMap_le32_length];
            omega) hp
    rw [hparse]
    simp only [Option.map_some']
    exact ⟨rfl, by rw [mk_parsed_type], by rw [mk_parsed_code],
      by rw [mk_parsed_tid], by rw [mk_parsed_param_count, hcnt]⟩
  | dji_pad24_nolen =>
    have hform : encode_in_layout .dji_pad24_nolen kind op tid params =
        0 :: 0 :: 0 :: kind % 256 :: kind / 256 % 256 :: op % 256 ::
        op / 256 % 256 :: tid % 256 :: tid / 2 ^ 8 % 256 ::
        tid / 2 ^ 16 % 256 :: tid / 2 ^ 24 % 256 :: params.flatMap le32 := by
      simp [encode_in_layout, write_ptp_hdr, le16, le32]
    have hparse := parse_encode_pad24 kind op tid (params.flatMap le32) _
      hform hk1 hk4 hop htid
    have hcnt : (decode_params (encode_in_layout .dji_pad24_nolen kind op tid
        params) 11).1 = params.length :=
      decode_params_count _ 11 params.length
        (by rw [hform]; simp only [List.length_cons, flatMap_le32_length];
            omega) hp
    rw [hparse]
    simp only [Option.map_some']
    exact ⟨rfl, by rw [mk_parsed_type], by rw [mk_parsed_code],
      by rw [mk_parsed_tid], by rw [mk_parsed_param_count, hcnt]⟩
  | std_len =>
    have hform : encode_in_layout .std_len kind op tid params =
        (12 + 4 * params.length) % 256 ::
        (12 + 4 * params.length) / 2 ^ 8 % 256 ::
        (12 + 4 * params.length) / 2 ^ 16 % 256 ::
        (12 + 4 * params.length) / 2 ^ 24 % 256 :: kind % 256 ::
        kind / 256 % 256 :: op % 256 :: op / 256 % 256 :: tid % 256 ::
        tid / 2 ^ 8 % 256 :: tid / 2 ^ 16 % 256 :: tid / 2 ^ 24 % 256 ::
        params.flatMap le32 := by
      simp [encode_in_layout, write_ptp_hdr, le16, le32]
    have hparse := parse_encode_std (12 + 4 * params.length) kind op tid
      (params.flatMap le32) _ hform (by omega) (by omega) hk1 hk4 hop htid
    have hcnt : (decode_params (encode_in_layout .std_len kind op tid
        params) 12).1 = params.length :=
      decode_params_count _ 12 params.length
        (by rw [hform]; simp only [List.length_cons, flatMap_le32_length];
            omega) hp
    rw [hparse]
    simp only [Option.map_some']
    exact ⟨rfl, by rw [mk_parsed_type], by rw [mk_parsed_code],
      by rw [mk_parsed_tid], by rw [mk_parsed_param_count, hcnt]⟩
  | alt_len =>
    have hform : encode_in_layout .alt_len kind op tid params =
        (12 + 4 * params.length) % 256 ::
        (12 + 4 * params.length) / 2 ^ 8 % 256 ::
        (12 + 4 * params.length) / 2 ^ 16 % 256 ::
        (12 + 4 * params.length) / 2 ^ 24 % 256 :: op % 256 ::
        op / 256 % 256 :: tid % 256 :: tid / 2 ^ 8 % 256 ::
        tid / 2 ^ 16 % 256 :: tid / 2 ^ 24 % 256 :: kind % 256 ::
        kind / 256 % 256 :: params.flatMap le32 := by
      simp [encode_in_layout, write_ptp_hdr, le16, le32]
    have hparse := parse_encode_alt (12 + 4 * params.length) kind op tid
      (params.flatMap le32) _ hform (by omega) (by omega) hk1 hk4 hop htid
      (halt rfl)
    have hcnt : (decode_params (encode_in_layout .alt_len kind op tid
        params) 12).1 = params.length :=
      decode_params_count _ 12 params.length
        (by rw [hform]; simp only [List.length_cons, flatMap_le32_length];
            omega) hp
    rw [hparse]
    simp only [Option.map_some']
    exact ⟨rfl, by rw [mk_parsed_type], by rw [mk_parsed_code],
      by rw [mk_parsed_tid], by rw [mk_parsed_param_count, hcnt]⟩

/-- Witness for C2 amended: Pad8NoLength, kind 1 (Command), op 0x9207,
tid 9, one parameter. -/
theorem C2_roundtrip_amended_witness :
    (parse_rs3_ptp_cmd (encode_in_layout .dji_pad8_nolen 1 0x9207 9
        [0xD2C8])).map (fun c => c.layout) =
      some rs3_ptp_layout_t.dji_pad8_nolen ∧
    (parse_rs3_ptp_cmd (encode_in_layout .dji_pad8_nolen 1 0x9207 9
        [0xD2C8])).map (fun c => c.type) = some 1 ∧
    (parse_rs3_ptp_cmd (encode_in_layout .dji_pad8_nolen 1 0x9207 9
        [0xD2C8])).map (fun c => c.code) = some 0x9207 ∧
    (parse_rs3_ptp_cmd (encode_in_layout .dji_pad8_nolen 1 0x9207 9
        [0xD2C8])).map (fun c => c.tid) = some 9 ∧
    (parse_rs3_ptp_cmd (encode_in_layout .dji_pad8_nolen 1 0x9207 9
        [0xD2C8])).map (fun c => c.param_count) =
      some [(0xD2C8 : Nat)].length :=
  C2_roundtrip_amended .dji_pad8_nolen 1 0x9207 9 [0xD2C8] (by decide)
    (by decide) (by decide) (by decide) (by decide) (by simp)

-- ---------------------------------------------------------------------------
-- C4: transmit-layout invariant
-- ---------------------------------------------------------------------------

/-- A bulk-IN action carries a StandardLengthPrefixed container header: a
stream-start transfer begins with a 12-byte standard Data header, a response
transfer is exactly a 12-byte standard Response header.  Continuation chunks,
ZLPs and non-transfer actions carry no header. -/
def header_std_ok : DevAction → Prop
  | DevAction.xferFirst bs => ∃ len code tid,
      bs.take 12 = write_ptp_hdr .std_len len PTP_CT_DATA code tid
  | DevAction.xferResp bs => ∃ code tid,
      bs = write_ptp_hdr .std_len 12 PTP_CT_RESPONSE code tid
  | _ => True

theorem take_twelve_hdr_append (len ty code tid : Nat) (l : List Nat) :
    (write_ptp_hdr .std_len len ty code tid ++ l).take 12 =
      write_ptp_hdr .std_len len ty code tid :=
  List.take_left' (by simp [write_ptp_hdr_length, ptp_hdr_bytes_for_layout])

theorem send_data_and_ok_header_std (st : DeviceState) (op tid : Nat)
    (payload : List Nat) (hl : st.ptp_layout = .std_len) :
    (∀ a ∈ (send_data_and_ok st op tid payload).2, header_std_ok a) ∧
    (send_data_and_ok st op tid payload).1.ptp_layout = .std_len := by
  unfold send_data_and_ok
  rw [tx_stream_start_eq st op tid payload true hl]
  dsimp only
  constructor
  · intro a ha
    simp only [List.mem_singleton] at ha
    subst ha
    exact ⟨12 + payload.length, op, tid, take_twelve_hdr_append _ _ _ _ _⟩
  · exact hl

theorem respond_header_std (st : DeviceState) (code tid : Nat) :
    (∀ a ∈ (respond st code tid).2, header_std_ok a) ∧
    (respond st code tid).1.ptp_layout = st.ptp_layout := by
  rw [respond_eq]
  dsimp only
  constructor
  · intro a ha
    simp only [List.mem_singleton] at ha
    subst ha
    exact ⟨code, tid, rfl⟩
  · rfl

theorem build_storage_info_160 : build_storage_info 160 =
    some (le16 0x0002 ++ le16 0x0002 ++ le16 0x0000 ++
      le64 (32 * 1024 * 1024 * 1024) ++ le64 (31 * 1024 * 1024 * 1024) ++
      le32 0xFFFFFFFF ++ ptp_write_string_bytes (some str_internal_storage) ++
      ptp_write_string_bytes (some str_sony)) := by
  unfold build_storage_info
  rw [if_neg (by decide)]

theorem dispatch_command_header_std (st : DeviceState) (code tid : Nat)
    (params : List Nat) (pc : Nat) (hl : st.ptp_layout = .std_len) :
    (∀ a ∈ (dispatch_command st code tid params pc).2, header_std_ok a) ∧
    (dispatch_command st code tid params pc).1.ptp_layout = .std_len := by
  unfold dispatch_command
  rw [build_storage_info_160]
  by_cases h1 : code = PTP_OC_GET_DEVICE_INFO
  · rw [if_pos h1]
    exact send_data_and_ok_header_std _ _ _ _ hl
  rw [if_neg h1]
  by_cases h2 : code = PTP_OC_GET_STORAGE_IDS
  · rw [if_pos h2]
    exact send_data_and_ok_header_std _ _ _ _ hl
  rw [if_neg h2]
  by_cases h3 : code = PTP_OC_GET_STORAGE_INFO
  · rw [if_pos h3]
    exact send_data_and_ok_header_std _ _ _ _ hl
  rw [if_neg h3]
  by_cases h4 : code = PTP_OC_GET_NUM_OBJECTS
  · rw [if_pos h4]
    exact send_data_and_ok_header_std _ _ _ _ hl
  rw [if_neg h4]
  by_cases h5 : code = PTP_OC_GET_OBJECT_HANDLES
  · rw [if_pos h5]
    exact send_data_and_ok_header_std _ _ _ _ hl
  rw [if_neg h5]
  by_cases h6 : code = PTP_OC_OPEN_SESSION
  · rw [if_pos h6]
    exact ⟨(respond_header_std _ _ _).1,
      by rw [(respond_header_std _ _ _).2]; exact hl⟩
  rw [if_neg h6]
  by_cases h7 : code = PTP_OC_CLOSE_SESSION
  · rw [if_pos h7]
    exact ⟨(respond_header_std _ _ _).1,
      by rw [(respond_header_std _ _ _).2]; exact hl⟩
  rw [if_neg h7]
  by_cases h8 : code = PTP_OC_SONY_9201
  · rw [if_pos h8]
    exact send_data_and_ok_header_std _ _ _ _ hl
  rw [if_neg h8]
  by_cases h9 : code = PTP_OC_SONY_9202
  · rw [if_pos h9]
    exact send_data_and_ok_header_std _ _ _ _ hl
  rw [if_neg h9]
  by_cases h10 : code = PTP_OC_SONY_9209
  · rw [if_pos h10]
    exact send_data_and_ok_header_std _ _ _ _ hl
  rw [if_neg h10]
  by_cases h11 : code = PTP_OC_SONY_9207
  · rw [if_pos h11]
    exact ⟨fun a ha => absurd ha (by simp), hl⟩
  rw [if_neg h11]
  exact ⟨(respond_header_std _ _ _).1,
    by rw [(respond_header_std _ _ _).2]; exact hl⟩

theorem handle_data_header_std (st : DeviceState) (cmd : rs3_ptp_cmd_parsed_t)
    (rx : List Nat) :
    (∀ a ∈ (handle_data st cmd rx).2, header_std_ok a) ∧
    (handle_data st cmd rx).1.ptp_layout = st.ptp_layout := by
  unfold handle_data
  dsimp only
  split_ifs
  all_goals try exact ⟨fun a ha => by
    simp only [List.mem_singleton] at ha
    subst ha
    trivial, rfl⟩
  all_goals
    rw [respond_eq]
    refine ⟨?_, rfl⟩
    intro a ha
    simp only [List.mem_append, List.mem_cons, List.not_mem_nil,
      List.mem_singleton, false_or, or_false, or_assoc] at ha
  all_goals first
    | (rcases ha with ha | ha | ha
       · subst ha; trivial
       · subst ha; exact ⟨PTP_RC_OK, cmd.tid, rfl⟩
       · subst ha; trivial)
    | (rcases ha with ha | ha
       · subst ha; exact ⟨PTP_RC_OK, cmd.tid, rfl⟩
       · subst ha; trivial)

theorem ptp_in_handler_header_std (st : DeviceState) :
    (∀ a ∈ (ptp_in_handler st).2, header_std_ok a) ∧
    (ptp_in_handler st).1.ptp_layout = st.ptp_layout := by
  unfold ptp_in_handler
  dsimp only
  split_ifs
  · refine ⟨?_, rfl⟩
    intro a ha
    simp only [List.mem_singleton] at ha
    subst ha
    trivial
  · refine ⟨?_, rfl⟩
    intro a ha
    simp only [List.mem_singleton] at ha
    subst ha
    trivial
  · rw [respond_eq]
    refine ⟨?_, rfl⟩
    intro a ha
    simp only [List.mem_singleton] at ha
    subst ha
    exact ⟨PTP_RC_OK, st.tx_stream_tid, rfl⟩
  · exact ⟨fun a ha => absurd ha (List.not_mem_nil a), rfl⟩
  · exact ⟨fun a ha => absurd ha (List.not_mem_nil a), rfl⟩

theorem ptp_out_handler_header_std (st : DeviceState) (rx : List Nat)
    (hl : st.ptp_layout = .std_len) :
    (∀ a ∈ (ptp_out_handler st rx).2, header_std_ok a) ∧
    (ptp_out_handler st rx).1.ptp_layout = .std_len := by
  unfold ptp_out_handler
  by_cases h8 : 8 ≤ rx.length
  · rw [if_pos h8]
    cases hp : parse_rs3_ptp_cmd rx with
    | none =>
      exact ⟨fun a ha => by
        simp only [List.mem_singleton] at ha
        subst ha
        trivial, hl⟩
    | some cmd =>
      dsimp only
      by_cases hty : cmd.type = PTP_CT_DATA
      · rw [if_pos hty]
        have hd := handle_data_header_std
          { st with last_rx_layout := cmd.layout } cmd rx
        exact ⟨hd.1, by rw [hd.2]; exact hl⟩
      · rw [if_neg hty]
        by_cases hc : cmd.type = PTP_CT_COMMAND
        · rw [if_neg (not_not_intro hc)]
          dsimp only
          have hd := dispatch_command_header_std
            { st with last_rx_layout := cmd.layout } cmd.code cmd.tid
            cmd.params cmd.param_count hl
          refine ⟨?_, hd.2⟩
          intro a ha
          rcases List.mem_append.mp ha with ha | ha
          · exact hd.1 a ha
          · simp only [List.mem_singleton] at ha
            subst ha
            trivial
        · rw [if_pos hc]
          exact ⟨fun a ha => by
            simp only [List.mem_singleton] at ha
            subst ha
            trivial, hl⟩
  · rw [if_neg h8]
    exact ⟨fun a ha => by
      simp only [List.mem_singleton] at ha
      subst ha
      trivial, hl⟩

/-- C4: with the transmit layout in its (initial and invariant) standard
setting, every container header sent on bulk IN — the Data header written by
a stream start and every Response header — is StandardLengthPrefixed,
whatever layout the incoming container was decoded as; both handlers preserve
the standard transmit layout, which is also the initial one. -/
theorem C4_transmit_layout_invariant (st : DeviceState) (rx : List Nat)
    (hl : st.ptp_layout = .std_len) :
    (∀ a ∈ (ptp_out_handler st rx).2, header_std_ok a) ∧
    (ptp_out_handler st rx).1.ptp_layout = .std_len ∧
    (∀ a ∈ (ptp_in_handler st).2, header_std_ok a) ∧
    (ptp_in_handler st).1.ptp_layout = .std_len ∧
    initState.ptp_layout = .std_len :=
  ⟨(ptp_out_handler_header_std st rx hl).1,
   (ptp_out_handler_header_std st rx hl).2,
   (ptp_in_handler_header_std st).1,
   by rw [(ptp_in_handler_header_std st).2]; exact hl,
   rfl⟩

/-- Witness for C4 at the initial state and a Pad24NoLength OpenSession
command (so the received layout differs from the transmitted one). -/
theorem C4_transmit_layout_invariant_witness :
    (∀ a ∈ (ptp_out_handler initState
        [0, 0, 0, 1, 0, 2, 16, 0, 0, 0, 0, 42, 0, 0, 0]).2, header_std_ok a) ∧
    (ptp_out_handler initState
        [0, 0, 0, 1, 0, 2, 16, 0, 0, 0, 0, 42, 0, 0, 0]).1.ptp_layout =
      .std_len ∧
    (∀ a ∈ (ptp_in_handler initState).2, header_std_ok a) ∧
    (ptp_in_handler initState).1.ptp_layout = .std_len ∧
    initState.ptp_layout = .std_len :=
  C4_transmit_layout_invariant initState
    [0, 0, 0, 1, 0, 2, 16, 0, 0, 0, 0, 42, 0, 0, 0] rfl

-- ---------------------------------------------------------------------------
-- C3: streaming schedule
-- ---------------------------------------------------------------------------

theorem run_in_inactive (fuel : Nat) (st : DeviceState)
    (h : st.tx_stream_active = false) : run_in fuel st = (st, []) := by
  induction fuel with
  | zero => rfl
  | succ n ih =>
    have hstep : ptp_in_handler st = (st, []) := by
      unfold ptp_in_handler
      rw [if_neg (by simp [h])]
    unfold run_in
    rw [hstep]
    dsimp only
    rw [ih]
    rfl

theorem chunks_of_nil : chunks_of [] = [] := by
  rw [chunks_of]
  simp

theorem chunks_of_ne_nil (l : List Nat) (h : ¬l = []) :
    chunks_of l = l.take 512 :: chunks_of (l.drop 512) := by
  rw [chunks_of]
  simp [h]

theorem chunks_of_length (l : List Nat) :
    (chunks_of l).length = (l.length + 511) / 512 := by
  induction l using chunks_of.induct with
  | case1 => rw [chunks_of_nil]; simp
  | case2 l h hdec ih =>
    rw [chunks_of_ne_nil l h, List.length_cons, ih, List.length_drop]
    have : 0 < l.length := List.length_pos.mpr h
    omega

theorem take_min_length (l : List Nat) (n : Nat) :
    l.take (min l.length n) = l.take n := by
  rcases le_total l.length n with h | h
  · rw [min_eq_left h, List.take_length, List.take_of_length_le h]
  · rw [min_eq_right h]

theorem drop_min_length (l : List Nat) (n : Nat) :
    l.drop (min l.length n) = l.drop n := by
  rcases le_total l.length n with h | h
  · rw [min_eq_left h, List.drop_length, List.drop_eq_nil_of_le h]
  · rw [min_eq_right h]

theorem run_in_stream (fuel : Nat) (st : DeviceState)
    (hact : st.tx_stream_active = true)
    (hlenrel : st.tx_stream_payload_len = st.tx_stream_payload.length)
    (hoff : st.tx_stream_payload_off ≤ st.tx_stream_payload_len)
    (hok : st.tx_stream_send_ok_after = true)
    (hfuel : st.tx_stream_payload_len - st.tx_stream_payload_off + 2 ≤ fuel) :
    (run_in fuel st).2 =
      (chunks_of (st.tx_stream_payload.drop st.tx_stream_payload_off)).map
        DevAction.xferChunk ++
      (if st.tx_stream_need_zlp = true ∧ st.tx_stream_zlp_sent = false then
        [DevAction.xferZLP] else []) ++
      [DevAction.xferResp
        (write_ptp_hdr .std_len 12 PTP_CT_RESPONSE PTP_RC_OK
          st.tx_stream_tid)] ∧
    (run_in fuel st).1.tx_stream_active = false := by
  induction fuel generalizing st with
  | zero => omega
  | succ n ih =>
    by_cases hlt : st.tx_stream_payload_off < st.tx_stream_payload_len
    · -- a continuation chunk is sent
      have hdroplen :
          (st.tx_stream_payload.drop st.tx_stream_payload_off).length =
            st.tx_stream_payload_len - st.tx_stream_payload_off := by
        simp [List.length_drop]
        omega
      have hbytes_len :
          ((st.tx_stream_payload.drop st.tx_stream_payload_off).take
            (min (st.tx_stream_payload_len - st.tx_stream_payload_off) 512)).length =
            min (st.tx_stream_payload_len - st.tx_stream_payload_off) 512 := by
        simp [List.length_take, hdroplen]
      have hstep : ptp_in_handler st =
          ({ st with
              tx_buf := list_overwrite st.tx_buf 0
                ((st.tx_stream_payload.drop st.tx_stream_payload_off).take
                  (min (st.tx_stream_payload_len - st.tx_stream_payload_off) 512)),
              tx_stream_payload_off := st.tx_stream_payload_off +
                min (st.tx_stream_payload_len - st.tx_stream_payload_off) 512 },
           [DevAction.xferChunk
             ((st.tx_stream_payload.drop st.tx_stream_payload_off).take
               (min (st.tx_stream_payload_len - st.tx_stream_payload_off) 512))]) := by
        unfold ptp_in_handler
        rw [if_pos hact, if_pos hlt]
        dsimp only
        rw [list_overwrite_zero, List.take_left' hbytes_len,
          ← list_overwrite_zero]
      unfold run_in
      rw [hstep]
      dsimp only
      obtain ⟨ih1, ih2⟩ := ih
        { st with
            tx_buf := list_overwrite st.tx_buf 0
              ((st.tx_stream_payload.drop st.tx_stream_payload_off).take
                (min (st.tx_stream_payload_len - st.tx_stream_payload_off) 512)),
            tx_stream_payload_off := st.tx_stream_payload_off +
              min (st.tx_stream_payload_len - st.tx_stream_payload_off) 512 }
        hact hlenrel
        (by omega : st.tx_stream_payload_off +
          min (st.tx_stream_payload_len - st.tx_stream_payload_off) 512 ≤
          st.tx_stream_payload_len)
        hok
        (by omega : st.tx_stream_payload_len -
          (st.tx_stream_payload_off +
            min (st.tx_stream_payload_len - st.tx_stream_payload_off) 512) +
          2 ≤ n)
      rw [ih1]
      dsimp only
      refine ⟨?_, ih2⟩
      have hne : ¬(st.tx_stream_payload.drop st.tx_stream_payload_off) = [] := by
        intro hnil
        rw [hnil] at hdroplen
        simp at hdroplen
        omega
      have htake : (st.tx_stream_payload.drop st.tx_stream_payload_off).take
          (min (st.tx_stream_payload_len - st.tx_stream_payload_off) 512) =
          (st.tx_stream_payload.drop st.tx_stream_payload_off).take 512 := by
        rw [← hdroplen, take_min_length]
      have hdrop : (st.tx_stream_payload.drop st.tx_stream_payload_off).drop
          (min (st.tx_stream_payload_len - st.tx_stream_payload_off) 512) =
          (st.tx_stream_payload.drop st.tx_stream_payload_off).drop 512 := by
        rw [← hdroplen, drop_min_length]
      rw [chunks_of_ne_nil _ hne, ← List.drop_drop, hdrop, htake]
      simp
    · -- payload exhausted: optional ZLP, then the final OK response
      have hdropnil : st.tx_stream_payload.drop st.tx_stream_payload_off = [] := by
        apply List.eq_nil_of_length_eq_zero
        simp [List.length_drop]
        omega
      rw [hdropnil, chunks_of_nil]
      by_cases hzlp : st.tx_stream_need_zlp = true ∧
          st.tx_stream_zlp_sent = false
      · -- ZLP owed
        have hzstep : ptp_in_handler st =
            ({ st with tx_stream_zlp_sent := true }, [DevAction.xferZLP]) := by
          unfold ptp_in_handler
          rw [if_pos hact, if_neg hlt, if_pos hzlp]
        obtain ⟨m, rfl⟩ : ∃ m, n = m + 1 := ⟨n - 1, by omega⟩
        unfold run_in
        rw [hzstep]
        dsimp only
        have hfstep : ptp_in_handler { st with tx_stream_zlp_sent := true } =
            ({ st with tx_stream_zlp_sent := false,
                       tx_stream_active := false,
                       tx_stream_send_ok_after := false,
                       tx_stream_payload := [],
                       tx_stream_payload_len := 0,
                       tx_stream_payload_off := 0,
                       tx_stream_need_zlp := false,
                       tx_buf := write_ptp_hdr .std_len 12 PTP_CT_RESPONSE
                           PTP_RC_OK st.tx_stream_tid ++ st.tx_buf.drop 12 },
             [DevAction.xferResp
               (write_ptp_hdr .std_len 12 PTP_CT_RESPONSE PTP_RC_OK
                 st.tx_stream_tid)]) := by
          unfold ptp_in_handler
          rw [if_pos hact, if_neg (by dsimp only; omega),
            if_neg (by dsimp only; simp), if_pos hok]
          rw [respond_eq]
        unfold run_in
        rw [hfstep]
        dsimp only
        rw [run_in_inactive m _ rfl]
        rw [if_pos hzlp]
        exact ⟨rfl, rfl⟩
      · -- no ZLP owed
        have hfstep : ptp_in_handler st =
            ({ st with tx_stream_zlp_sent := false,
                       tx_stream_active := false,
                       tx_stream_send_ok_after := false,
                       tx_stream_payload := [],
                       tx_stream_payload_len := 0,
                       tx_stream_payload_off := 0,
                       tx_stream_need_zlp := false,
                       tx_buf := write_ptp_hdr .std_len 12 PTP_CT_RESPONSE
                           PTP_RC_OK st.tx_stream_tid ++ st.tx_buf.drop 12 },
             [DevAction.xferResp
               (write_ptp_hdr .std_len 12 PTP_CT_RESPONSE PTP_RC_OK
                 st.tx_stream_tid)]) := by
          unfold ptp_in_handler
          rw [if_pos hact, if_neg hlt, if_neg hzlp, if_pos hok]
          rw [respond_eq]
        unfold run_in
        rw [hfstep]
        dsimp only
        rw [run_in_inactive n _ rfl]
        rw [if_neg hzlp]
        exact ⟨rfl, rfl⟩

/-- The observable bulk-IN trace of one streamed response: the first transfer
issued by `tx_stream_start` followed by everything the bulk-IN completion
handler emits until the stream is retired (`payload.length + 2` completions
always suffice). -/
def stream_trace (st : DeviceState) (op tid : Nat) (payload : List Nat)
    (ok : Bool) : List DevAction :=
  DevAction.xferFirst (tx_stream_start st op tid payload ok).2 ::
    (run_in (payload.length + 2) (tx_stream_start st op tid payload ok).1).2

/-- Payload-bearing transfers: the header+initial-payload first transfer and
the continuation chunks. -/
def is_payload_xfer : DevAction → Bool
  | DevAction.xferFirst _ => true
  | DevAction.xferChunk _ => true
  | _ => false

def is_zlp : DevAction → Bool
  | DevAction.xferZLP => true
  | _ => false

theorem filter_payload_map_chunks (cs : List (List Nat)) :
    (cs.map DevAction.xferChunk).filter is_payload_xfer =
      cs.map DevAction.xferChunk := by
  induction cs with
  | nil => rfl
  | cons c t ih => simp [is_payload_xfer, ih]

theorem filter_zlp_map_chunks (cs : List (List Nat)) :
    (cs.map DevAction.xferChunk).filter is_zlp = [] := by
  induction cs with
  | nil => rfl
  | cons c t ih => simp [is_zlp, ih]

theorem filter_resp_map_chunks (cs : List (List Nat)) :
    (cs.map DevAction.xferChunk).filter is_resp = [] := by
  induction cs with
  | nil => rfl
  | cons c t ih => simp [is_resp, ih]

/-- C3: starting a stream with `emit_ok_after` set under the standard
transmit layout produces, in order: one first transfer carrying the 12-byte
standard Data header plus the initial payload, continuation chunks covering
the rest (512-byte transmit buffer), a trailing zero-length packet exactly
when `(12 + L) % 64 = 0` (max packet size 64), and one final OK Response
with the stream's transaction id, after which the Stream Context is retired.
The number of payload-bearing transfers is `⌈(12 + L) / 512⌉`. -/
theorem C3_streaming_schedule (st : DeviceState) (op tid : Nat)
    (payload : List Nat) (hl : st.ptp_layout = .std_len) :
    stream_trace st op tid payload true =
      DevAction.xferFirst
        (write_ptp_hdr .std_len (12 + payload.length) PTP_CT_DATA op tid ++
          payload.take (min payload.length 500)) ::
      (chunks_of (payload.drop (min payload.length 500))).map
        DevAction.xferChunk ++
      (if (12 + payload.length) % 64 = 0 then [DevAction.xferZLP] else []) ++
      [DevAction.xferResp
        (write_ptp_hdr .std_len 12 PTP_CT_RESPONSE PTP_RC_OK tid)] ∧
    ((stream_trace st op tid payload true).filter is_payload_xfer).length =
      (12 + payload.length + 511) / 512 ∧
    ((stream_trace st op tid payload true).filter is_zlp).length =
      (if (12 + payload.length) % 64 = 0 then 1 else 0) ∧
    resp_actions (stream_trace st op tid payload true) =
      [DevAction.xferResp
        (write_ptp_hdr .std_len 12 PTP_CT_RESPONSE PTP_RC_OK tid)] ∧
    (run_in (payload.length + 2)
      (tx_stream_start st op tid payload true).1).1.tx_stream_active = false := by
  have hchar : stream_trace st op tid payload true =
      DevAction.xferFirst
        (write_ptp_hdr .std_len (12 + payload.length) PTP_CT_DATA op tid ++
          payload.take (min payload.length 500)) ::
      (chunks_of (payload.drop (min payload.length 500))).map
        DevAction.xferChunk ++
      (if (12 + payload.length) % 64 = 0 then [DevAction.xferZLP] else []) ++
      [DevAction.xferResp
        (write_ptp_hdr .std_len 12 PTP_CT_RESPONSE PTP_RC_OK tid)] := by
    unfold stream_trace
    rw [tx_stream_start_eq st op tid payload true hl]
    dsimp only
    obtain ⟨h1, h2⟩ := run_in_stream (payload.length + 2)
      { st with
          tx_stream_active := true, tx_stream_code := op, tx_stream_tid := tid,
          tx_stream_payload := payload,
          tx_stream_payload_len := payload.length,
          tx_stream_payload_off := min payload.length 500,
          tx_stream_need_zlp := decide ((12 + payload.length) % 64 = 0),
          tx_stream_zlp_sent := false, tx_stream_send_ok_after := true,
          tx_buf :=
            write_ptp_hdr .std_len (12 + payload.length) PTP_CT_DATA op tid ++
              (payload.take (min payload.length 500) ++
                st.tx_buf.drop (12 + min payload.length 500)) }
      rfl rfl
      (by omega : min payload.length 500 ≤ payload.length)
      rfl
      (by omega : payload.length - min payload.length 500 + 2 ≤
        payload.length + 2)
    rw [h1]
    dsimp only
    by_cases hm : (12 + payload.length) % 64 = 0
    · simp [hm]
    · simp [hm]
  have hactive : (run_in (payload.length + 2)
      (tx_stream_start st op tid payload true).1).1.tx_stream_active = false := by
    rw [tx_stream_start_eq st op tid payload true hl]
    dsimp only
    exact (run_in_stream (payload.length + 2) _ rfl rfl
      (by omega : min payload.length 500 ≤ payload.length) rfl
      (by omega : payload.length - min payload.length 500 + 2 ≤
        payload.length + 2)).2
  refine ⟨hchar, ?_, ?_, ?_, hactive⟩
  · rw [hchar]
    have hdl : (payload.drop (min payload.length 500)).length =
        payload.length - min payload.length 500 := by
      simp [List.length_drop]
    by_cases hm : (12 + payload.length) % 64 = 0
    · simp [hm, filter_payload_map_chunks, is_payload_xfer, chunks_of_length,
        hdl]
      omega
    · simp [hm, filter_payload_map_chunks, is_payload_xfer, chunks_of_length,
        hdl]
      omega
  · rw [hchar]
    by_cases hm : (12 + payload.length) % 64 = 0
    · simp [hm, filter_zlp_map_chunks, is_zlp]
    · simp [hm, filter_zlp_map_chunks, is_zlp]
  · rw [hchar]
    unfold resp_actions
    by_cases hm : (12 + payload.length) % 64 = 0
    · simp [hm, filter_resp_map_chunks, is_resp]
    · simp [hm, filter_resp_map_chunks, is_resp]

/-- Witness for C3: a 52-byte payload from the initial state
(`12 + 52 = 64`, so a ZLP is owed; everything fits the first transfer). -/
theorem C3_streaming_schedule_witness :
    stream_trace initState 0x9209 7 (List.replicate 52 1) true =
      DevAction.xferFirst
        (write_ptp_hdr .std_len (12 + (List.replicate 52 1).length)
          PTP_CT_DATA 0x9209 7 ++
          (List.replicate 52 1).take (min (List.replicate 52 1).length 500)) ::
      (chunks_of ((List.replicate 52 1).drop
        (min (List.replicate 52 1).length 500))).map DevAction.xferChunk ++
      (if (12 + (List.replicate 52 1).length) % 64 = 0 then
        [DevAction.xferZLP] else []) ++
      [DevAction.xferResp
        (write_ptp_hdr .std_len 12 PTP_CT_RESPONSE PTP_RC_OK 7)] ∧
    ((stream_trace initState 0x9209 7 (List.replicate 52 1) true).filter
        is_payload_xfer).length =
      (12 + (List.replicate 52 1).length + 511) / 512 ∧
    ((stream_trace initState 0x9209 7 (List.replicate 52 1) true).filter
        is_zlp).length =
      (if (12 + (List.replicate 52 1).length) % 64 = 0 then 1 else 0) ∧
    resp_actions (stream_trace initState 0x9209 7 (List.replicate 52 1) true) =
      [DevAction.xferResp
        (write_ptp_hdr .std_len 12 PTP_CT_RESPONSE PTP_RC_OK 7)] ∧
    (run_in ((List.replicate 52 1).length + 2)
      (tx_stream_start initState 0x9209 7 (List.replicate 52 1)
        true).1).1.tx_stream_active = false :=
  C3_streaming_schedule initState 0x9209 7 (List.replicate 52 1) rfl
